import Mathlib

/-!
Verification development for a GitHub automation agent consisting of two
Python modules: `github_tools.py` (REST/GraphQL GitHub tools with a
write-gate/deferral decorator) and `agent_runner.py` (process entry point).

The embedding is shallow: Python strings are Lean `String`s (with a few
character-level helpers mirroring Python's `str.split`, `str.replace` on a
single-character pattern, `int(...)`, `urllib.parse.quote`, and truthiness
conventions), environment variables are an explicit `Env` record, and the
network is an explicit oracle (`RestRequest → RestResponse` for REST,
a `GqlWorld` record for the GraphQL path).  Each tool returns a
`ToolOutput` carrying:
  * `ret` — the Python return value (`Except.ok s` = the function returned
    the string `s`; `Except.error m` = an uncaught Python exception with
    message `m` propagated out of the tool);
  * `helperCalls` — one entry per invocation of `_github_request`;
  * `sent` — one entry per HTTP request actually sent on the wire;
  * `records` — one entry per line appended to the JSONL deferral log.
Tool invocations are modelled as fully-keyword calls (every declared
parameter is supplied by name), matching how the agent framework invokes
tools; console rendering is a pure side channel and is not modelled, and
file-system I/O for the deferral log is assumed to succeed.
-/

/-! ## Python-style string helpers -/

/-- Python whitespace characters recognised by `str.strip()` (ASCII subset). -/
def isPySpace (c : Char) : Bool :=
  c = ' ' || c = '\t' || c = '\n' || c = '\r' || c = '\x0b' || c = '\x0c'

/-- Python truthiness `not s.strip()`: `s` is empty or all whitespace. -/
def pyAllSpace (s : String) : Bool := s.toList.all isPySpace

/-- Python `str.split(sep)` for a one-character separator, on char lists
(keeps empty pieces, like Python's `split` with an explicit separator). -/
def splitChar (sep : Char) : List Char → List (List Char)
  | [] => [[]]
  | c :: cs =>
    if c = sep then [] :: splitChar sep cs
    else
      match splitChar sep cs with
      | [] => [[c]]
      | h :: t => (c :: h) :: t

/-- Python `repo.split("/")` as used in `get_pr_review_and_comments`. -/
def pySplitSlash (s : String) : List String :=
  (splitChar '/' s.toList).map String.mk

/-- Python `since.replace('Z', '+00:00')` (single-character pattern). -/
def zrep (s : String) : String :=
  String.mk (s.toList.flatMap fun c => if c = 'Z' then "+00:00".toList else [c])

/-- Accumulate the numeric value of a decimal digit string. -/
def digitsToNat (cs : List Char) : Nat :=
  cs.foldl (fun acc c => acc * 10 + (c.toNat - 48)) 0

/-- Python `int(s)` on the sign-and-digits fragment relevant here
(`None` models the `ValueError` raised on anything else; underscore digit
separators are not modelled). -/
def pyInt (cs : List Char) : Option Int :=
  match cs with
  | '-' :: ds => if ds ≠ [] ∧ ds.all Char.isDigit then some (-(digitsToNat ds : Int)) else none
  | '+' :: ds => if ds ≠ [] ∧ ds.all Char.isDigit then some ((digitsToNat ds : Int)) else none
  | ds => if ds ≠ [] ∧ ds.all Char.isDigit then some ((digitsToNat ds : Int)) else none

/-- Python `o or d` for an optional string (`None` and `""` are falsy). -/
def pyOrStr (o : Option String) (d : String) : String :=
  match o with
  | some s => if s ≠ "" then s else d
  | none => d

/-- Python `o or d` for an optional int (`None` and `0` are falsy); used for
`first_comment.get('startLine') or target_line`. -/
def pyOrInt (o : Option Int) (d : Int) : Int :=
  match o with
  | some n => if n ≠ 0 then n else d
  | none => d

/-- Python truthiness of an optional int (`None` and `0` are falsy). -/
def truthyInt (o : Option Int) : Bool :=
  match o with
  | some n => n ≠ 0
  | none => false

/-- UTF-8 bytes of a character (as `Nat`s). -/
def utf8Bytes (c : Char) : List Nat :=
  let n := c.toNat
  if n < 0x80 then [n]
  else if n < 0x800 then [0xC0 + n / 0x40, 0x80 + n % 0x40]
  else if n < 0x10000 then [0xE0 + n / 0x1000, 0x80 + (n / 0x40) % 0x40, 0x80 + n % 0x40]
  else [0xF0 + n / 0x40000, 0x80 + (n / 0x1000) % 0x40, 0x80 + (n / 0x40) % 0x40, 0x80 + n % 0x40]

/-- Uppercase hex digit. -/
def hexChar (n : Nat) : Char := if n < 10 then Char.ofNat (48 + n) else Char.ofNat (55 + n)

/-- Byte kept verbatim by `urllib.parse.quote` as it is invoked through
`urlencode(..., quote_via=quote)` (github_tools.py lines 367-371):
`urlencode` passes its own default `safe=''` through to `quote`, so only
the always-safe bytes survive — ASCII letters, digits and `_ . - ~`; in
particular `/` is percent-encoded as `%2F`. -/
def quoteSafeByte (b : Nat) : Bool :=
  (65 ≤ b && b ≤ 90) || (97 ≤ b && b ≤ 122) || (48 ≤ b && b ≤ 57) ||
  b = 95 || b = 46 || b = 45 || b = 126

/-- `urllib.parse.quote(s, safe='')` as invoked by the `urlencode` call of
lines 367-371: percent-encode every non-always-safe UTF-8 byte as `%HH`
with uppercase hex. -/
def pyQuote (s : String) : String :=
  String.mk (s.toList.flatMap fun c =>
    (utf8Bytes c).flatMap fun b =>
      if quoteSafeByte b then [Char.ofNat b] else ['%', hexChar (b / 16), hexChar (b % 16)])

/-! ## Environment and data model -/

/-- The process environment variables consulted by `github_tools.py`.
`none` = unset. -/
structure Env where
  github_repository : Option String
  github_token : Option String
  github_write : Option String
  deriving DecidableEq

/-- Python `os.environ.get(name, d)`. -/
def envGet (o : Option String) (d : String) : String := o.getD d

/-- Python `str.lower()` (character-wise). -/
def pyLower (s : String) : String := String.mk (s.toList.map Char.toLower)

/-- `_should_call_write_api` (github_tools.py lines 221-227):
`os.environ.get("GITHUB_WRITE", "").lower() == "true"`. -/
def _should_call_write_api (env : Env) : Bool :=
  pyLower (envGet env.github_write "") == "true"

/-- Repository resolution of `_github_request` lines 124-127: an explicit
argument wins (even an empty one, which then fails the `not repo` check);
otherwise `GITHUB_REPOSITORY`; `some r` means `r` is the nonempty resolved
repository, `none` means the `"Error: GITHUB_REPOSITORY ..."` branch. -/
def resolvedRepo (env : Env) (repo : Option String) : Option String :=
  match repo with
  | some x => if x = "" then none else some x
  | none =>
    match env.github_repository with
    | some y => if y = "" then none else some y
    | none => none

/-- A parameter value as recorded in the deferral log / deferred message:
Python `str`, `int`, or `None`. -/
inductive PVal where
  | str (s : String)
  | int (n : Int)
  | none
  deriving DecidableEq

/-- One line of `.artifact/write_operations.jsonl` (the timestamp field is
not modelled): operation name plus the supplied keyword arguments. -/
structure OpRecord where
  function : String
  params : List (String × PVal)
  deriving DecidableEq

/-- One invocation of the `_github_request` helper. -/
structure HelperCall where
  method : String
  endpoint : String
  deriving DecidableEq

/-- One HTTP request actually sent to `https://api.github.com/repos/...`. -/
structure RestRequest where
  method : String
  endpoint : String
  repo : String
  data : List (String × String)
  params : List (String × String)
  deriving DecidableEq

/-- The fields of GitHub JSON objects that the tools read. -/
structure GHItem where
  number : Int
  title : String
  state : String
  body : String
  user_login : String
  html_url : String
  created_at : String
  updated_at : String
  head_ref : String
  base_ref : String
  has_pull_request : Bool
  deriving DecidableEq

/-- A parsed JSON response body: a single object or an array of objects. -/
inductive GHPayload where
  | obj (item : GHItem)
  | arr (items : List GHItem)
  deriving DecidableEq

/-- Outcome of one HTTP request: parsed 2xx JSON, or a failure
(non-2xx status / transport error / JSON decoding error). -/
inductive RestResponse where
  | ok (p : GHPayload)
  | fail (msg : String)
  deriving DecidableEq

/-- Whether a response is a successful array payload. -/
def isArrResp : RestResponse → Bool
  | .ok (.arr _) => true
  | _ => false

/-- Whether a response is a successful object payload. -/
def isObjResp : RestResponse → Bool
  | .ok (.obj _) => true
  | _ => false

/-- The REST world never answers with an array payload. -/
def NoArr (net : RestRequest → RestResponse) : Prop :=
  ∀ req, isArrResp (net req) = false

/-- The REST world never answers with an object payload. -/
def NoObj (net : RestRequest → RestResponse) : Prop :=
  ∀ req, isObjResp (net req) = false

/-- What `_github_request` hands back to its caller. -/
inductive GHResult where
  | payload (p : GHPayload)
  | err (s : String)
  | raised (msg : String)
  deriving DecidableEq

/-- Result of one `_github_request` invocation, with its traces. -/
structure ReqOut where
  result : GHResult
  helperCalls : List HelperCall
  sent : List RestRequest
  deriving DecidableEq

/-- `_github_request` (github_tools.py lines 109-151).  Resolves the
repository and token, then performs at most one HTTP request; on failure it
returns `"Error {e}"` unless `should_raise`, in which case the exception
propagates (`GHResult.raised`). -/
def _github_request (env : Env) (net : RestRequest → RestResponse)
    (method endpoint : String) (repo : Option String)
    (data : List (String × String)) (params : List (String × String))
    (should_raise : Bool) : ReqOut :=
  let call : HelperCall := ⟨method, endpoint⟩
  match resolvedRepo env repo with
  | none => ⟨.err "Error: GITHUB_REPOSITORY environment variable not found", [call], []⟩
  | some r =>
    if envGet env.github_token "" = "" then
      ⟨.err "Error: GITHUB_TOKEN environment variable not found", [call], []⟩
    else
      let req : RestRequest := ⟨method, endpoint, r, data, params⟩
      match net req with
      | .ok p => ⟨.payload p, [call], [req]⟩
      | .fail m =>
        if should_raise then ⟨.raised m, [call], [req]⟩
        else ⟨.err ("Error " ++ m), [call], [req]⟩

/-! ## Write gate and deferral -/

/-- Format one parameter for the deferred message
(`_generate_deferred_message` lines 208-216): strings are quoted and
truncated to 50 characters, other values use Python `str()`. -/
def formatParam : String × PVal → String
  | (k, .str v) =>
    if v.length > 50 then k ++ "='" ++ v.take 50 ++ "...'" else k ++ "='" ++ v ++ "'"
  | (k, .int n) => k ++ "=" ++ toString n
  | (k, .none) => k ++ "=None"

/-- `_generate_deferred_message` (lines 195-218). -/
def _generate_deferred_message (operation_name : String) (params : List (String × PVal)) : String :=
  if params = [] then "Operation deferred: " ++ operation_name
  else
    "Operation deferred: " ++ operation_name ++ " - " ++
      String.intercalate ", " (params.map formatParam)

/-- The return value and traces of one tool invocation.  `ret = .error m`
models an uncaught Python exception escaping the tool. -/
structure ToolOutput where
  ret : Except String String
  helperCalls : List HelperCall
  sent : List RestRequest
  records : List OpRecord

/-- `check_should_call_write_api_or_record` (lines 154-192): if writes are
enabled, delegate to the wrapped operation unchanged; otherwise append one
record to the deferral log and return the deferred message.  (The decorator
also catches I/O errors while recording; log I/O is assumed to succeed
here.) -/
def gate (env : Env) (nm : String) (params : List (String × PVal))
    (body : ToolOutput) : ToolOutput :=
  if _should_call_write_api env then body
  else ⟨.ok (_generate_deferred_message nm params), [], [], [⟨nm, params⟩]⟩

/-- Lift an optional string argument to a recorded parameter value. -/
def pvo (o : Option String) : PVal :=
  match o with
  | some s => .str s
  | none => .none

/-- Lift an optional int argument to a recorded parameter value. -/
def pvoi (o : Option Int) : PVal :=
  match o with
  | some n => .int n
  | none => .none

/-- Package a `ReqOut` and a return value as a `ToolOutput`. -/
def outOf (r : ReqOut) (ret : Except String String) : ToolOutput :=
  ⟨ret, r.helperCalls, r.sent, []⟩

/-! ## Write tools (github_tools.py lines 234-450) -/

/-- Body of `create_issue` (lines 237-255). -/
def create_issue_body (env : Env) (net : RestRequest → RestResponse)
    (title bodyStr : String) (repo : Option String) : ToolOutput :=
  let r := _github_request env net "POST" "issues" repo
      [("title", title), ("body", bodyStr)] [] false
  match r.result with
  | .err s => outOf r (.ok s)
  | .payload (.obj it) =>
    outOf r (.ok ("Issue created: #" ++ toString it.number ++ " - " ++ it.html_url))
  | .payload (.arr _) =>
    outOf r (.error "TypeError: list indices must be integers or slices, not str")
  | .raised m => outOf r (.error m)

/-- `create_issue` with its write-gate decorator. -/
def create_issue (env : Env) (net : RestRequest → RestResponse)
    (title bodyStr : String) (repo : Option String) : ToolOutput :=
  gate env "create_issue"
    [("title", .str title), ("body", .str bodyStr), ("repo", pvo repo)]
    (create_issue_body env net title bodyStr repo)

/-- Body of `update_issue` (lines 261-300): merge the supplied optional
fields; with none supplied, return a validation error without calling the
helper. -/
def update_issue_body (env : Env) (net : RestRequest → RestResponse)
    (issue_number : Int) (title bodyStr state repo : Option String) : ToolOutput :=
  let data :=
    (match title with | some t => [("title", t)] | none => []) ++
    (match bodyStr with | some b => [("body", b)] | none => []) ++
    (match state with | some s => [("state", s)] | none => [])
  if data = [] then
    ⟨.ok "Error: At least one field (title, body, or state) must be provided", [], [], []⟩
  else
    let r := _github_request env net "PATCH" ("issues/" ++ toString issue_number) repo
        data [] false
    match r.result with
    | .err s => outOf r (.ok s)
    | .payload (.obj it) =>
      outOf r (.ok ("Issue updated: #" ++ toString it.number ++ " - " ++ it.html_url))
    | .payload (.arr _) =>
      outOf r (.error "TypeError: list indices must be integers or slices, not str")
    | .raised m => outOf r (.error m)

/-- `update_issue` with its write-gate decorator. -/
def update_issue (env : Env) (net : RestRequest → RestResponse)
    (issue_number : Int) (title bodyStr state repo : Option String) : ToolOutput :=
  gate env "update_issue"
    [("issue_number", .int issue_number), ("title", pvo title), ("body", pvo bodyStr),
     ("state", pvo state), ("repo", pvo repo)]
    (update_issue_body env net issue_number title bodyStr state repo)

/-- Body of `add_issue_comment` (lines 306-324). -/
def add_issue_comment_body (env : Env) (net : RestRequest → RestResponse)
    (issue_number : Int) (comment_text : String) (repo : Option String) : ToolOutput :=
  let r := _github_request env net "POST"
      ("issues/" ++ toString issue_number ++ "/comments") repo
      [("body", comment_text)] [] false
  match r.result with
  | .err s => outOf r (.ok s)
  | .payload (.obj it) =>
    outOf r (.ok ("Comment added successfully: " ++ it.html_url ++
      " (created: " ++ it.created_at ++ ")"))
  | .payload (.arr _) =>
    outOf r (.error "TypeError: list indices must be integers or slices, not str")
  | .raised m => outOf r (.error m)

/-- `add_issue_comment` with its write-gate decorator. -/
def add_issue_comment (env : Env) (net : RestRequest → RestResponse)
    (issue_number : Int) (comment_text : String) (repo : Option String) : ToolOutput :=
  gate env "add_issue_comment"
    [("issue_number", .int issue_number), ("comment_text", .str comment_text),
     ("repo", pvo repo)]
    (add_issue_comment_body env net issue_number comment_text repo)

/-- The query string built by `create_pull_request`'s fallback path
(lines 367-371): `urlencode` over the insertion-ordered dict
`quick_pull / title / body` with `quote_via=quote`. -/
def fallbackQuery (title bodyStr : String) : String :=
  "quick_pull=1&title=" ++ pyQuote title ++ "&body=" ++ pyQuote bodyStr

/-- The manual-creation deep link of the fallback path (line 372). -/
def fallbackLink (repo_name base head title bodyStr : String) : String :=
  "https://github.com/" ++ repo_name ++ "/compare/" ++ base ++ "..." ++ head ++ "?" ++
    fallbackQuery title bodyStr

/-- The comment text posted by the fallback path (line 373). -/
def fallbackCommentText (repo_name base head title bodyStr : String) : String :=
  "Unable to create pull request via API. You can create it manually by clicking [here](" ++
    fallbackLink repo_name base head title bodyStr ++ ")."

/-- Body of `create_pull_request` (lines 330-379): POST to `pulls` with
`should_raise=True`; on an exception, either comment a manual-creation link
on the fallback issue (via the decorated `add_issue_comment`, whose return
value is discarded but whose own exceptions would propagate), or return a
plain error string. -/
def create_pull_request_body (env : Env) (net : RestRequest → RestResponse)
    (title head base bodyStr : String) (repo : Option String)
    (fallback_issue_id : Option Int) : ToolOutput :=
  let r := _github_request env net "POST" "pulls" repo
      [("title", title), ("head", head), ("base", base), ("body", bodyStr)] [] true
  match r.result with
  | .err s => outOf r (.ok s)
  | .payload (.obj it) =>
    outOf r (.ok ("Pull request created: #" ++ toString it.number ++ " - " ++ it.html_url))
  | .payload (.arr _) =>
    outOf r (.error "TypeError: list indices must be integers or slices, not str")
  | .raised m =>
    match fallback_issue_id with
    | some fid =>
      let repo_name := pyOrStr repo (envGet env.github_repository "")
      let c := add_issue_comment env net fid
          (fallbackCommentText repo_name base head title bodyStr) repo
      match c.ret with
      | .error m2 => ⟨.error m2, r.helperCalls ++ c.helperCalls, r.sent ++ c.sent, c.records⟩
      | .ok _ =>
        ⟨.ok ("Unable to create pull request via API - posted a manual creation link as a comment on issue #" ++ toString fid),
          r.helperCalls ++ c.helperCalls, r.sent ++ c.sent, c.records⟩
    | none => outOf r (.ok ("Error: " ++ m))

/-- `create_pull_request` with its write-gate decorator. -/
def create_pull_request (env : Env) (net : RestRequest → RestResponse)
    (title head base bodyStr : String) (repo : Option String)
    (fallback_issue_id : Option Int) : ToolOutput :=
  gate env "create_pull_request"
    [("title", .str title), ("head", .str head), ("base", .str base),
     ("body", .str bodyStr), ("repo", pvo repo),
     ("fallback_issue_id", pvoi fallback_issue_id)]
    (create_pull_request_body env net title head base bodyStr repo fallback_issue_id)

/-- Body of `update_pull_request` (lines 385-424). -/
def update_pull_request_body (env : Env) (net : RestRequest → RestResponse)
    (pr_number : Int) (title bodyStr bse repo : Option String) : ToolOutput :=
  let data :=
    (match title with | some t => [("title", t)] | none => []) ++
    (match bodyStr with | some b => [("body", b)] | none => []) ++
    (match bse with | some b => [("base", b)] | none => [])
  if data = [] then
    ⟨.ok "Error: At least one field (title, body, or base) must be provided", [], [], []⟩
  else
    let r := _github_request env net "PATCH" ("pulls/" ++ toString pr_number) repo
        data [] false
    match r.result with
    | .err s => outOf r (.ok s)
    | .payload (.obj it) =>
      outOf r (.ok ("Pull request updated: #" ++ toString it.number ++ " - " ++ it.html_url))
    | .payload (.arr _) =>
      outOf r (.error "TypeError: list indices must be integers or slices, not str")
    | .raised m => outOf r (.error m)

/-- `update_pull_request` with its write-gate decorator. -/
def update_pull_request (env : Env) (net : RestRequest → RestResponse)
    (pr_number : Int) (title bodyStr bse repo : Option String) : ToolOutput :=
  gate env "update_pull_request"
    [("pr_number", .int pr_number), ("title", pvo title), ("body", pvo bodyStr),
     ("base", pvo bse), ("repo", pvo repo)]
    (update_pull_request_body env net pr_number title bodyStr bse repo)

/-- Body of `reply_to_review_comment` (lines 430-450). -/
def reply_to_review_comment_body (env : Env) (net : RestRequest → RestResponse)
    (pr_number comment_id : Int) (reply_text : String) (repo : Option String) : ToolOutput :=
  let r := _github_request env net "POST"
      ("pulls/" ++ toString pr_number ++ "/comments/" ++ toString comment_id ++ "/replies")
      repo [("body", reply_text)] [] false
  match r.result with
  | .err s => outOf r (.ok s)
  | .payload (.obj it) =>
    outOf r (.ok ("Reply added to review comment: " ++ it.html_url))
  | .payload (.arr _) =>
    outOf r (.error "TypeError: list indices must be integers or slices, not str")
  | .raised m => outOf r (.error m)

/-- `reply_to_review_comment` with its write-gate decorator. -/
def reply_to_review_comment (env : Env) (net : RestRequest → RestResponse)
    (pr_number comment_id : Int) (reply_text : String) (repo : Option String) : ToolOutput :=
  gate env "reply_to_review_comment"
    [("pr_number", .int pr_number), ("comment_id", .int comment_id),
     ("reply_text", .str reply_text), ("repo", pvo repo)]
    (reply_to_review_comment_body env net pr_number comment_id reply_text repo)

/-! ## Read tools (github_tools.py lines 457-638) -/

/-- Python `repo or os.environ.get('GITHUB_REPOSITORY')` as interpolated in
informational messages (an unset variable prints as `None`). -/
def repoDisplay (env : Env) (repo : Option String) : String :=
  pyOrStr repo (match env.github_repository with | some r => r | none => "None")

/-- `get_issue` (lines 459-487). -/
def get_issue (env : Env) (net : RestRequest → RestResponse)
    (issue_number : Int) (repo : Option String) : ToolOutput :=
  let r := _github_request env net "GET" ("issues/" ++ toString issue_number) repo [] [] false
  match r.result with
  | .err s => outOf r (.ok s)
  | .payload (.obj it) =>
    outOf r (.ok ("#" ++ toString it.number ++ " - " ++ it.title ++
      "\nState: " ++ it.state ++ "\nAuthor: " ++ it.user_login ++
      "\nURL: " ++ it.html_url ++ "\n\n" ++ it.body))
  | .payload (.arr _) =>
    outOf r (.error "TypeError: list indices must be integers or slices, not str")
  | .raised m => outOf r (.error m)

/-- One summary line of `list_issues` (line 532). -/
def issueLine (it : GHItem) : String :=
  "#" ++ toString it.number ++ " - " ++ it.title ++ " by " ++ it.user_login ++
    " - " ++ it.html_url ++ "\n"

/-- `list_issues` (lines 492-533): GET `issues` with a `state` query
parameter, filter out items carrying a `pull_request` key, and either report
an informational empty message or a summary block. -/
def list_issues (env : Env) (net : RestRequest → RestResponse)
    (state : String) (repo : Option String) : ToolOutput :=
  let r := _github_request env net "GET" "issues" repo [] [("state", state)] false
  match r.result with
  | .err s => outOf r (.ok s)
  | .payload (.obj _) =>
    outOf r (.error "TypeError: string indices must be integers")
  | .payload (.arr items) =>
    let issues := items.filter (fun it => !it.has_pull_request)
    if issues = [] then
      outOf r (.ok ("No " ++ state ++ " issues found in " ++ repoDisplay env repo))
    else
      outOf r (.ok ("Issues (" ++ state ++ ") in " ++ repoDisplay env repo ++ ":\n" ++
        String.join (issues.map issueLine)))
  | .raised m => outOf r (.error m)

/-- One comment block of `get_issue_comments` (line 562). -/
def commentBlock (it : GHItem) : String :=
  it.user_login ++ " - updated: " ++ it.updated_at ++ "\n" ++ it.body ++ "\n\n"

/-- `get_issue_comments` (lines 538-565): the optional `since` is passed
through as a query parameter when truthy. -/
def get_issue_comments (env : Env) (net : RestRequest → RestResponse)
    (issue_number : Int) (repo : Option String) (since : Option String) : ToolOutput :=
  let params := match since with
    | some s => if s ≠ "" then [("since", s)] else []
    | none => []
  let r := _github_request env net "GET"
      ("issues/" ++ toString issue_number ++ "/comments") repo [] params false
  match r.result with
  | .err s => outOf r (.ok s)
  | .payload (.obj _) =>
    outOf r (.error "TypeError: string indices must be integers")
  | .payload (.arr items) =>
    if items = [] then
      outOf r (.ok ("No comments found for issue #" ++ toString issue_number ++
        (match since with
         | some s => if s ≠ "" then " updated after " ++ s else ""
         | none => "")))
    else
      outOf r (.ok ("Comments for issue #" ++ toString issue_number ++ ":\n" ++
        String.join (items.map commentBlock)))
  | .raised m => outOf r (.error m)

/-- `get_pull_request` (lines 570-599). -/
def get_pull_request (env : Env) (net : RestRequest → RestResponse)
    (pr_number : Int) (repo : Option String) : ToolOutput :=
  let r := _github_request env net "GET" ("pulls/" ++ toString pr_number) repo [] [] false
  match r.result with
  | .err s => outOf r (.ok s)
  | .payload (.obj it) =>
    outOf r (.ok ("#" ++ toString it.number ++ " - " ++ it.title ++
      "\nState: " ++ it.state ++ "\nAuthor: " ++ it.user_login ++
      "\nHead: " ++ it.head_ref ++ " -> Base: " ++ it.base_ref ++
      "\nURL: " ++ it.html_url ++ "\n\n" ++ it.body))
  | .payload (.arr _) =>
    outOf r (.error "TypeError: list indices must be integers or slices, not str")
  | .raised m => outOf r (.error m)

/-- `list_pull_requests` (lines 604-638). -/
def list_pull_requests (env : Env) (net : RestRequest → RestResponse)
    (state : String) (repo : Option String) : ToolOutput :=
  let r := _github_request env net "GET" "pulls" repo [] [("state", state)] false
  match r.result with
  | .err s => outOf r (.ok s)
  | .payload (.obj _) =>
    outOf r (.error "TypeError: string indices must be integers")
  | .payload (.arr items) =>
    if items = [] then
      outOf r (.ok ("No " ++ state ++ " pull requests found in " ++ repoDisplay env repo))
    else
      outOf r (.ok ("Pull Requests (" ++ state ++ ") in " ++ repoDisplay env repo ++ ":\n" ++
        String.join (items.map issueLine)))
  | .raised m => outOf r (.error m)

/-! ## PR review-thread aggregator (github_tools.py lines 641-843)

The GraphQL response is modelled structurally.  `ReviewComment.review = none`
models a comment node without a `pullRequestReview` entry (grouped under the
sentinel `"N/A"` key); comment authors are modelled as present (non-null)
logins.  `GqlWorld.parseTime` models `datetime.fromisoformat` (applied after
the `Z` replacement): `none` = the `ValueError` it raises on malformed input;
timestamps compare as integers. -/

/-- Parent-review metadata of a review comment. -/
structure ReviewMeta where
  id : String
  body : String
  authorLogin : Option String
  updatedAt : String
  deriving DecidableEq

/-- One inline review comment node. -/
structure ReviewComment where
  id : String
  fullDatabaseId : String
  authorLogin : String
  body : String
  updatedAt : String
  path : String
  line : Option Int
  startLine : Option Int
  diffHunk : String
  replyToId : Option String
  review : Option ReviewMeta
  deriving DecidableEq

/-- One review thread node. -/
structure ReviewThread where
  isResolved : Bool
  comments : List ReviewComment
  deriving DecidableEq

/-- One top-level PR comment node. -/
structure PrComment where
  authorLogin : String
  body : String
  updatedAt : String
  deriving DecidableEq

/-- The pull-request data returned by the GraphQL query. -/
structure PrData where
  reviewThreads : List ReviewThread
  comments : List PrComment
  deriving DecidableEq

/-- The decoded GraphQL HTTP response body: an optional `errors` payload
(rendered as the string Python would interpolate) and the
`data.repository.pullRequest` value (`none` = null / missing, which makes the
subsequent subscripting raise). -/
structure GqlData where
  errors : Option String
  pr : Option PrData

/-- Outcome of the GraphQL POST. -/
inductive GqlResponse where
  | transportErr (msg : String)
  | httpData (d : GqlData)

/-- The external world of `get_pr_review_and_comments`. -/
structure GqlWorld where
  gql : GqlResponse
  parseTime : String → Option Int
  traceback : String

/-- Short-circuiting `any(... for c in thread comments)` of line 731:
parse each comment's timestamp in order, stopping at the first one strictly
newer than the cutoff; a malformed timestamp raises. -/
def anyNewerE (parse : String → Option Int) (cutoff : Int) :
    List ReviewComment → Except String Bool
  | [] => .ok false
  | c :: cs =>
    match parse (zrep c.updatedAt) with
    | none => .error "Invalid isoformat string"
    | some t => if cutoff < t then .ok true else anyNewerE parse cutoff cs

/-- The thread filter of lines 729-735: keep a thread (whole) iff some
comment is strictly newer than the cutoff. -/
def filterThreadsE (parse : String → Option Int) (cutoff : Int) :
    List ReviewThread → Except String (List ReviewThread)
  | [] => .ok []
  | th :: ths =>
    match anyNewerE parse cutoff th.comments with
    | .error e => .error e
    | .ok b =>
      match filterThreadsE parse cutoff ths with
      | .error e => .error e
      | .ok rest => .ok (if b then th :: rest else rest)

/-- The top-level comment filter of lines 738-739. -/
def filterCommentsE (parse : String → Option Int) (cutoff : Int) :
    List PrComment → Except String (List PrComment)
  | [] => .ok []
  | c :: cs =>
    match parse (zrep c.updatedAt) with
    | none => .error "Invalid isoformat string"
    | some t =>
      match filterCommentsE parse cutoff cs with
      | .error e => .error e
      | .ok rest => .ok (if cutoff < t then c :: rest else rest)

/-- The whole `since` filter of lines 725-739. -/
def sinceFilterE (parse : String → Option Int) (since : String) (pd : PrData) :
    Except String PrData :=
  match parse (zrep since) with
  | none => .error "Invalid isoformat string"
  | some cutoff =>
    match filterThreadsE parse cutoff pd.reviewThreads with
    | .error e => .error e
    | .ok ths =>
      match filterCommentsE parse cutoff pd.comments with
      | .error e => .error e
      | .ok cs => .ok ⟨ths, cs⟩

/-- One display group: review identity, the metadata captured from the first
thread inserted, and its threads in insertion order. -/
structure ReviewGroup where
  review_id : String
  review_data : Option ReviewMeta
  threads : List ReviewThread

/-- Insert a thread into the ordered groups (python dict insertion-order
semantics of lines 744-759). -/
def addToGroups (gs : List ReviewGroup) (rid : String) (rd : Option ReviewMeta)
    (th : ReviewThread) : List ReviewGroup :=
  match gs with
  | [] => [⟨rid, rd, [th]⟩]
  | g :: rest =>
    if g.review_id = rid then ⟨g.review_id, g.review_data, g.threads ++ [th]⟩ :: rest
    else g :: addToGroups rest rid rd th

/-- Group the surviving threads by parent-review identity, skipping resolved
threads (unless `show_resolved`) and threads without comments
(lines 744-759). -/
def groupThreads (show_resolved : Bool) (ths : List ReviewThread) : List ReviewGroup :=
  ths.foldl
    (fun gs th =>
      if !show_resolved && th.isResolved then gs
      else
        match th.comments with
        | [] => gs
        | first :: _ =>
          let rid := match first.review with | some m => m.id | none => "N/A"
          addToGroups gs rid first.review th)
    []

/-- Python `line.startswith(pre)` on char lists. -/
def startsWithChars (pre l : List Char) : Bool := pre.isPrefixOf l

/-- One step of the diff-hunk walk (lines 793-808): an `@@` header resets
the new-file line counter from its third space-separated field, `+` and
space lines advance it (and are emitted when within `[s, t]`), `-` lines
leave it unchanged, anything else is skipped. -/
def hunkStep (s t : Int) (acc : Int × String) (line : List Char) :
    Except String (Int × String) :=
  let cur := acc.1
  let out := acc.2
  if startsWithChars ['@', '@'] line then
    let parts := splitChar ' ' line
    if parts.length ≥ 3 then
      match pyInt (((parts.getD 2 []).takeWhile (fun ch => ch ≠ ',')).drop 1) with
      | some v => .ok (v - 1, out)
      | none => .error "ValueError: invalid literal for int() with base 10"
    else .ok (cur, out)
  else if startsWithChars ['+'] line then
    let cur2 := cur + 1
    .ok (cur2,
      if s ≤ cur2 ∧ cur2 ≤ t then
        out ++ ("       +" ++ toString cur2 ++ ": " ++ String.mk (line.drop 1) ++ "\n")
      else out)
  else if startsWithChars ['-'] line then .ok (cur, out)
  else if startsWithChars [' '] line then
    let cur2 := cur + 1
    .ok (cur2,
      if s ≤ cur2 ∧ cur2 ≤ t then
        out ++ ("        " ++ toString cur2 ++ ": " ++ String.mk (line.drop 1) ++ "\n")
      else out)
  else .ok (cur, out)

/-- Walk all lines of a diff hunk starting from counter 0 (line 787),
returning the emitted code-context excerpt. -/
def processHunk (s t : Int) (lines : List (List Char)) : Except String String := do
  let r ← lines.foldlM (hunkStep s t) ((0 : Int), "")
  pure r.2

/-- Render one reply (lines 822-824). -/
def renderReply (r : ReviewComment) : String :=
  "         ↳ " ++ r.authorLogin ++ " (updated: " ++ r.updatedAt ++ "):\n           " ++
    r.body ++ "\n"

/-- Render one root comment with its replies (lines 815-824). -/
def renderRoot (all : List ReviewComment) (root : ReviewComment) : String :=
  "      💬 " ++ root.authorLogin ++ " (updated: " ++ root.updatedAt ++
    ") [Comment ID: " ++ root.fullDatabaseId ++ "]:\n         " ++ root.body ++ "\n" ++
    String.join ((all.filter (fun c => c.replyToId = some root.id)).map renderReply)

/-- Render a thread's comments grouped by reply relationship
(lines 811-824). -/
def renderComments (cs : List ReviewComment) : String :=
  String.join ((cs.filter (fun c => c.replyToId.isNone)).map (renderRoot cs))

/-- Render one thread: header, optional diff context, comments
(lines 777-826). -/
def renderThread (th : ReviewThread) : Except String String :=
  match th.comments with
  | [] => .error "IndexError: list index out of range"
  | first :: _ =>
    let line_info :=
      if truthyInt first.line then ":" ++ toString (first.line.getD 0)
      else " (Comment on file)"
    let status := if th.isResolved then "✅ RESOLVED" else "🔄 OPEN"
    let headLine := "   📍 Thread (" ++ status ++ "): " ++ first.path ++ line_info ++ "\n"
    do
      let ctx ←
        if first.diffHunk ≠ "" && truthyInt first.line then do
          let target := first.line.getD 0
          let start := pyOrInt first.startLine target
          let hunkOut ← processHunk start target (splitChar '\n' first.diffHunk.toList)
          pure ("      Code context (lines " ++ toString start ++ "-" ++ toString target ++
            "):\n" ++ hunkOut ++ "\n")
        else pure ""
      pure (headLine ++ ctx ++ renderComments th.comments ++ "\n")

/-- Render one review group's header (lines 762-774): review identity, then
author/timestamp and body lines only when truthy. -/
def renderGroupHeader (rid : String) (rd : Option ReviewMeta) : String :=
  "📝 Review [Review ID: " ++ rid ++ "]\n" ++
    (match rd with
     | some m =>
       (match m.authorLogin with
        | some login => "   👤 Review by " ++ login ++ " (updated: " ++ m.updatedAt ++ ")\n"
        | none => "") ++
       (if m.body ≠ "" then "   📋 Review Comment:\n      " ++ m.body ++ "\n" else "")
     | none => "") ++
    "\n"

/-- Render one review group (lines 762-827). -/
def renderGroup (g : ReviewGroup) : Except String String := do
  let parts ← g.threads.mapM renderThread
  pure (renderGroupHeader g.review_id g.review_data ++ String.join parts ++ "\n")

/-- Render one top-level PR comment (lines 831-835). -/
def renderTopComment (c : PrComment) : String :=
  "💬 Comment\n   👤 Comment by " ++ c.authorLogin ++ " (updated: " ++ c.updatedAt ++
    ")\n   📝 Comment:\n      " ++ c.body ++ "\n\n"

/-- Assemble the whole output text (lines 741-838). -/
def buildOutput (pr_number : Int) (show_resolved : Bool) (pd : PrData) :
    Except String String := do
  let gparts ← (groupThreads show_resolved pd.reviewThreads).mapM renderGroup
  pure ("Review threads and comments for PR #" ++ toString pr_number ++ ":\n\n" ++
    String.join gparts ++ String.join (pd.comments.map renderTopComment))

/-- The `try` body from the GraphQL response onward (lines 717-838). -/
def gqlTryBody (pr_number : Int) (show_resolved : Bool) (since : Option String)
    (parse : String → Option Int) (d : GqlData) : Except String String :=
  match d.errors with
  | some e => .ok ("GraphQL Error: " ++ e)
  | none =>
    match d.pr with
    | none => .error "TypeError: argument of type NoneType is not subscriptable"
    | some pd =>
      match since with
      | some s =>
        if s = "" then buildOutput pr_number show_resolved pd
        else
          match sinceFilterE parse s pd with
          | .error e => .error e
          | .ok pd2 => buildOutput pr_number show_resolved pd2
      | none => buildOutput pr_number show_resolved pd

/-- The `except Exception` handler of lines 840-843: any exception raised
inside the `try` is converted to an error string with the stack trace
appended. -/
def runCaught (w : GqlWorld) : Except String String → String
  | .ok s => s
  | .error e => "Error: " ++ e ++ "\n\nStack trace:\n" ++ w.traceback

/-- `get_pr_review_and_comments` (lines 643-843).  The result is the
returned string (`.ok`) or an uncaught exception (`.error`) — the only
statement outside the `try` that can raise is the `owner, repo_name =
repo.split("/")` unpacking of line 664. -/
def get_pr_review_and_comments (env : Env) (w : GqlWorld) (pr_number : Int)
    (show_resolved : Bool) (repo : Option String) (since : Option String) :
    Except String String :=
  match resolvedRepo env repo with
  | none => .ok "Error: GITHUB_REPOSITORY environment variable not found"
  | some r =>
    if envGet env.github_token "" = "" then
      .ok "Error: GITHUB_TOKEN environment variable not found"
    else
      match pySplitSlash r with
      | [_, _] =>
        .ok (runCaught w
          (match w.gql with
           | .transportErr m => .error m
           | .httpData d => gqlTryBody pr_number show_resolved since w.parseTime d))
      | _ => .error "ValueError: values to unpack mismatch in repo.split"

/-! ## Agent runner (agent_runner.py lines 142-160) -/

/-- Outcome of the runner's `main`: either `run_agent` is invoked with the
given task text, or the process prints the fatal message and exits with
status 1 without any agent or model call. -/
inductive MainResult where
  | runs (task : String)
  | fatalExit (msg : String)
  deriving DecidableEq

/-- `main` of `agent_runner.py` (lines 142-160), up to the `run_agent`
call: `args` are the command-line arguments after the program name
(`sys.argv[1:]`). -/
def mainEntry (args : List String) : MainResult :=
  if args.length = 0 then .fatalExit ("Fatal error: " ++ "Task argument is required")
  else
    let task := String.intercalate " " args
    if pyAllSpace task then .fatalExit ("Fatal error: " ++ "Task cannot be empty")
    else .runs task

/-! ## Helper lemmas -/

lemma str_shift (x : String) :
    "Operation deferred: " ++ x = "Operation deferred:" ++ (" " ++ x) := by
  have h : "Operation deferred: " = "Operation deferred:" ++ " " := rfl
  rw [h, String.append_assoc]

lemma deferred_msg_split (nm : String) (ps : List (String × PVal)) :
    ∃ r, _generate_deferred_message nm ps = "Operation deferred:" ++ r := by
  unfold _generate_deferred_message
  by_cases h : ps = []
  · exact ⟨" " ++ nm, by simp only [h, if_pos rfl]; exact str_shift nm⟩
  · refine ⟨" " ++ (nm ++ " - " ++ String.intercalate ", " (ps.map formatParam)), ?_⟩
    simp only [if_neg h]
    rw [← str_shift]
    simp [String.append_assoc]

lemma gate_deferred (env : Env) (h : _should_call_write_api env = false)
    (nm : String) (ps : List (String × PVal)) (body : ToolOutput) :
    ∃ r, gate env nm ps body =
      ⟨.ok ("Operation deferred:" ++ r), [], [], [⟨nm, ps⟩]⟩ := by
  obtain ⟨r, hr⟩ := deferred_msg_split nm ps
  exact ⟨r, by simp [gate, h, hr]⟩

/-! ## Claim theorems -/

/-- C1: with `GITHUB_WRITE` unset or not case-insensitively `"true"`
(`_should_call_write_api env = false`), every mutating tool call performs
zero outbound REST requests (`sent = []`), appends exactly one record to the
deferral log containing the operation name and all supplied arguments, and
returns a string beginning with `"Operation deferred:"` — and does nothing
else (no helper invocation at all). -/
theorem writeGateDeferral
    (env : Env) (net : RestRequest → RestResponse)
    (ti bo : String) (rp : Option String)
    (inum : Int) (ut ub us : Option String) (urp : Option String)
    (cn : Int) (ct : String) (crp : Option String)
    (pt ph pb pbd : String) (prp : Option String) (fid : Option Int)
    (upn : Int) (upt upb upbase uprp : Option String)
    (rpn rcid : Int) (rtxt : String) (rrp : Option String)
    (h : _should_call_write_api env = false) :
    (∃ r, create_issue env net ti bo rp =
      ⟨.ok ("Operation deferred:" ++ r), [], [],
        [⟨"create_issue", [("title", .str ti), ("body", .str bo), ("repo", pvo rp)]⟩]⟩) ∧
    (∃ r, update_issue env net inum ut ub us urp =
      ⟨.ok ("Operation deferred:" ++ r), [], [],
        [⟨"update_issue", [("issue_number", .int inum), ("title", pvo ut), ("body", pvo ub),
          ("state", pvo us), ("repo", pvo urp)]⟩]⟩) ∧
    (∃ r, add_issue_comment env net cn ct crp =
      ⟨.ok ("Operation deferred:" ++ r), [], [],
        [⟨"add_issue_comment", [("issue_number", .int cn), ("comment_text", .str ct),
          ("repo", pvo crp)]⟩]⟩) ∧
    (∃ r, create_pull_request env net pt ph pb pbd prp fid =
      ⟨.ok ("Operation deferred:" ++ r), [], [],
        [⟨"create_pull_request", [("title", .str pt), ("head", .str ph), ("base", .str pb),
          ("body", .str pbd), ("repo", pvo prp), ("fallback_issue_id", pvoi fid)]⟩]⟩) ∧
    (∃ r, update_pull_request env net upn upt upb upbase uprp =
      ⟨.ok ("Operation deferred:" ++ r), [], [],
        [⟨"update_pull_request", [("pr_number", .int upn), ("title", pvo upt),
          ("body", pvo upb), ("base", pvo upbase), ("repo", pvo uprp)]⟩]⟩) ∧
    (∃ r, reply_to_review_comment env net rpn rcid rtxt rrp =
      ⟨.ok ("Operation deferred:" ++ r), [], [],
        [⟨"reply_to_review_comment", [("pr_number", .int rpn), ("comment_id", .int rcid),
          ("reply_text", .str rtxt), ("repo", pvo rrp)]⟩]⟩) :=
  ⟨gate_deferred env h _ _ _, gate_deferred env h _ _ _, gate_deferred env h _ _ _,
   gate_deferred env h _ _ _, gate_deferred env h _ _ _, gate_deferred env h _ _ _⟩

/-- Environment with writes disabled (`GITHUB_WRITE` unset). -/
def envOff : Env := ⟨some "octo/repo", some "token123", Option.none⟩

/-- Environment with writes enabled. -/
def envOn : Env := ⟨some "octo/repo", some "token123", some "True"⟩

/-- A REST world in which every request fails. -/
def netFail : RestRequest → RestResponse := fun _ => .fail "netdown"

theorem writeGateDeferral_witness :
    _should_call_write_api envOff = false ∧
    (∃ r, create_issue envOff netFail "T" "B" (some "octo/repo") =
      ⟨.ok ("Operation deferred:" ++ r), [], [],
        [⟨"create_issue", [("title", .str "T"), ("body", .str "B"),
          ("repo", pvo (some "octo/repo"))]⟩]⟩) :=
  ⟨by decide,
   (writeGateDeferral envOff netFail "T" "B" (some "octo/repo") 1 Option.none Option.none
      Option.none Option.none 2 "c" Option.none "t" "h" "b" "" Option.none Option.none 3
      Option.none Option.none Option.none Option.none 4 5 "r" Option.none (by decide)).1⟩

/-- C7: the request helper returns the literal repository error when no repo
argument is supplied and the environment variable yields no non-empty value,
and the literal token error when a repo resolves but the token yields no
non-empty value — in both cases sending zero network requests. -/
theorem githubRequestEnvErrors
    (env env2 : Env) (net net2 : RestRequest → RestResponse)
    (m e : String) (d p : List (String × String)) (sr : Bool)
    (repoArg2 : Option String) (r2 : String) :
    ((env.github_repository = Option.none ∨ env.github_repository = some "") →
      _github_request env net m e Option.none d p sr =
        ⟨.err "Error: GITHUB_REPOSITORY environment variable not found", [⟨m, e⟩], []⟩) ∧
    (resolvedRepo env2 repoArg2 = some r2 → envGet env2.github_token "" = "" →
      _github_request env2 net2 m e repoArg2 d p sr =
        ⟨.err "Error: GITHUB_TOKEN environment variable not found", [⟨m, e⟩], []⟩) := by
  constructor
  · intro h
    rcases h with h | h <;> simp [_github_request, resolvedRepo, h]
  · intro h1 h2
    simp [_github_request, h1, h2]

/-- Environment with no repository configured. -/
def envNoRepo : Env := ⟨Option.none, some "token123", Option.none⟩

/-- Environment with a repository but no token. -/
def envNoToken : Env := ⟨some "octo/repo", Option.none, Option.none⟩

theorem githubRequestEnvErrors_witness :
    (envNoRepo.github_repository = Option.none ∨ envNoRepo.github_repository = some "") ∧
    resolvedRepo envNoToken (some "octo/repo") = some "octo/repo" ∧
    envGet envNoToken.github_token "" = "" ∧
    _github_request envNoRepo netFail "GET" "issues" Option.none [] [] false =
      ⟨.err "Error: GITHUB_REPOSITORY environment variable not found", [⟨"GET", "issues"⟩], []⟩ ∧
    _github_request envNoToken netFail "GET" "issues" (some "octo/repo") [] [] false =
      ⟨.err "Error: GITHUB_TOKEN environment variable not found", [⟨"GET", "issues"⟩], []⟩ :=
  ⟨Or.inl rfl, by decide, rfl,
   (githubRequestEnvErrors envNoRepo envNoToken netFail netFail "GET" "issues" [] [] false
      (some "octo/repo") "octo/repo").1 (Or.inl rfl),
   (githubRequestEnvErrors envNoRepo envNoToken netFail netFail "GET" "issues" [] [] false
      (some "octo/repo") "octo/repo").2 (by decide) rfl⟩

/-- C8: for a non-empty argument list whose space-join is not all
whitespace, the runner proceeds with exactly the space-joined task text; for
zero arguments or an all-whitespace join it prints a fatal-error message and
exits with status 1 (`MainResult.fatalExit`) without any agent or model
call. -/
theorem agentRunnerTask (args : List String) :
    (args ≠ [] → pyAllSpace (String.intercalate " " args) = false →
      mainEntry args = MainResult.runs (String.intercalate " " args)) ∧
    (args = [] →
      mainEntry args = .fatalExit ("Fatal error: " ++ "Task argument is required")) ∧
    (args ≠ [] → pyAllSpace (String.intercalate " " args) = true →
      mainEntry args = .fatalExit ("Fatal error: " ++ "Task cannot be empty")) := by
  refine ⟨?_, ?_, ?_⟩
  · intro h1 h2
    simp [mainEntry, List.length_eq_zero, h1, h2]
  · intro h1
    simp [mainEntry, h1]
  · intro h1 h2
    simp [mainEntry, List.length_eq_zero, h1, h2]

theorem agentRunnerTask_witness :
    pyAllSpace (String.intercalate " " ["make", "tea"]) = false ∧
    pyAllSpace (String.intercalate " " [" ", ""]) = true ∧
    mainEntry ["make", "tea"] = MainResult.runs (String.intercalate " " ["make", "tea"]) ∧
    mainEntry [] = .fatalExit ("Fatal error: " ++ "Task argument is required") ∧
    mainEntry [" ", ""] = .fatalExit ("Fatal error: " ++ "Task cannot be empty") :=
  ⟨by decide, by decide,
   (agentRunnerTask ["make", "tea"]).1 (by decide) (by decide),
   (agentRunnerTask []).2.1 rfl,
   (agentRunnerTask [" ", ""]).2.2 (by decide) (by decide)⟩

lemma gate_on (env : Env) (h : _should_call_write_api env = true)
    (nm : String) (ps : List (String × PVal)) (body : ToolOutput) :
    gate env nm ps body = body := by
  simp [gate, h]

lemma ghreq_helperCalls (env : Env) (net : RestRequest → RestResponse)
    (m e : String) (rp : Option String) (d p : List (String × String)) (sr : Bool) :
    (_github_request env net m e rp d p sr).helperCalls = [⟨m, e⟩] := by
  unfold _github_request
  dsimp only
  split
  · rfl
  · split
    · rfl
    · split
      · rfl
      · split <;> rfl

/-- C2 counterexample: with `GITHUB_WRITE` unset, `update_issue` called with
all optional fields absent is deferred (one record appended, deferred
message returned) instead of returning the validation error — refuting the
claim's "regardless of the write-gate policy". -/
theorem updateValidation_counterexample :
    (update_issue envOff netFail 1 Option.none Option.none Option.none Option.none).ret =
      Except.ok "Operation deferred: update_issue - issue_number=1, title=None, body=None, state=None, repo=None" ∧
    "Operation deferred: update_issue - issue_number=1, title=None, body=None, state=None, repo=None" ≠
      "Error: At least one field (title, body, or state) must be provided" ∧
    (update_issue envOff netFail 1 Option.none Option.none Option.none Option.none).records =
      [⟨"update_issue", [("issue_number", .int 1), ("title", PVal.none), ("body", PVal.none),
        ("state", PVal.none), ("repo", PVal.none)]⟩] :=
  ⟨rfl, by decide, rfl⟩

/-- C2 (amended): with writes enabled, `update_issue` and
`update_pull_request` called with all optional fields absent return the
validation error string, invoke the request helper zero times, send nothing,
and append no deferral record; with writes disabled, the same calls are
deferred like any other mutating call (one record, a deferred message, no
REST call). -/
theorem updateValidationAmended
    (envW envD : Env) (net : RestRequest → RestResponse)
    (inum pn : Int) (rp rp2 : Option String)
    (hOn : _should_call_write_api envW = true)
    (hOff : _should_call_write_api envD = false) :
    update_issue envW net inum Option.none Option.none Option.none rp =
      ⟨.ok "Error: At least one field (title, body, or state) must be provided", [], [], []⟩ ∧
    update_pull_request envW net pn Option.none Option.none Option.none rp2 =
      ⟨.ok "Error: At least one field (title, body, or base) must be provided", [], [], []⟩ ∧
    (∃ r, update_issue envD net inum Option.none Option.none Option.none rp =
      ⟨.ok ("Operation deferred:" ++ r), [], [],
        [⟨"update_issue", [("issue_number", .int inum), ("title", PVal.none),
          ("body", PVal.none), ("state", PVal.none), ("repo", pvo rp)]⟩]⟩) ∧
    (∃ r, update_pull_request envD net pn Option.none Option.none Option.none rp2 =
      ⟨.ok ("Operation deferred:" ++ r), [], [],
        [⟨"update_pull_request", [("pr_number", .int pn), ("title", PVal.none),
          ("body", PVal.none), ("base", PVal.none), ("repo", pvo rp2)]⟩]⟩) :=
  ⟨(gate_on envW hOn _ _ _).trans rfl,
   (gate_on envW hOn _ _ _).trans rfl,
   gate_deferred envD hOff _ _ _,
   gate_deferred envD hOff _ _ _⟩

theorem updateValidationAmended_witness :
    _should_call_write_api envOn = true ∧ _should_call_write_api envOff = false ∧
    update_issue envOn netFail 7 Option.none Option.none Option.none Option.none =
      ⟨.ok "Error: At least one field (title, body, or state) must be provided", [], [], []⟩ :=
  ⟨by decide, by decide,
   (updateValidationAmended envOn envOff netFail 7 8 Option.none Option.none
      (by decide) (by decide)).1⟩

/-- C3 counterexample: with `GITHUB_WRITE="True"` the gate delegates, yet
`update_issue` called with no optional fields never reaches the REST helper
(zero helper invocations), refuting "the call reaches the REST helper" for
every mutating call. -/
theorem writeGatePassthrough_counterexample :
    _should_call_write_api envOn = true ∧
    (update_issue envOn netFail 1 Option.none Option.none Option.none Option.none).helperCalls
      = [] :=
  ⟨by decide, rfl⟩

lemma add_issue_comment_on (env : Env) (net : RestRequest → RestResponse)
    (i : Int) (c : String) (r : Option String) (h : _should_call_write_api env = true) :
    add_issue_comment env net i c r = add_issue_comment_body env net i c r :=
  gate_on env h _ _ _

lemma create_issue_body_facts (env : Env) (net : RestRequest → RestResponse)
    (ti bo : String) (rp : Option String) :
    (create_issue_body env net ti bo rp).records = [] ∧
    (create_issue_body env net ti bo rp).helperCalls = [⟨"POST", "issues"⟩] := by
  cases hres : (_github_request env net "POST" "issues" rp
      [("title", ti), ("body", bo)] [] false).result with
  | payload p => cases p <;> simp [create_issue_body, hres, outOf, ghreq_helperCalls]
  | err s => simp [create_issue_body, hres, outOf, ghreq_helperCalls]
  | raised m => simp [create_issue_body, hres, outOf, ghreq_helperCalls]

lemma add_issue_comment_body_facts (env : Env) (net : RestRequest → RestResponse)
    (cn : Int) (ct : String) (crp : Option String) :
    (add_issue_comment_body env net cn ct crp).records = [] ∧
    (add_issue_comment_body env net cn ct crp).helperCalls =
      [⟨"POST", "issues/" ++ toString cn ++ "/comments"⟩] := by
  cases hres : (_github_request env net "POST" ("issues/" ++ toString cn ++ "/comments") crp
      [("body", ct)] [] false).result with
  | payload p => cases p <;> simp [add_issue_comment_body, hres, outOf, ghreq_helperCalls]
  | err s => simp [add_issue_comment_body, hres, outOf, ghreq_helperCalls]
  | raised m => simp [add_issue_comment_body, hres, outOf, ghreq_helperCalls]

lemma reply_body_facts (env : Env) (net : RestRequest → RestResponse)
    (rpn rcid : Int) (rtxt : String) (rrp : Option String) :
    (reply_to_review_comment_body env net rpn rcid rtxt rrp).records = [] ∧
    (reply_to_review_comment_body env net rpn rcid rtxt rrp).helperCalls =
      [⟨"POST", "pulls/" ++ toString rpn ++ "/comments/" ++ toString rcid ++ "/replies"⟩] := by
  cases hres : (_github_request env net "POST"
      ("pulls/" ++ toString rpn ++ "/comments/" ++ toString rcid ++ "/replies") rrp
      [("body", rtxt)] [] false).result with
  | payload p => cases p <;> simp [reply_to_review_comment_body, hres, outOf, ghreq_helperCalls]
  | err s => simp [reply_to_review_comment_body, hres, outOf, ghreq_helperCalls]
  | raised m => simp [reply_to_review_comment_body, hres, outOf, ghreq_helperCalls]

lemma update_issue_body_records (env : Env) (net : RestRequest → RestResponse)
    (inum : Int) (ut ub us urp : Option String) :
    (update_issue_body env net inum ut ub us urp).records = [] := by
  unfold update_issue_body
  dsimp only
  split
  · rfl
  · split <;> rfl

lemma update_pull_request_body_records (env : Env) (net : RestRequest → RestResponse)
    (pn : Int) (ut ub ubase urp : Option String) :
    (update_pull_request_body env net pn ut ub ubase urp).records = [] := by
  unfold update_pull_request_body
  dsimp only
  split
  · rfl
  · split <;> rfl

lemma update_issue_body_calls_iff (env : Env) (net : RestRequest → RestResponse)
    (inum : Int) (ut ub us urp : Option String) :
    (update_issue_body env net inum ut ub us urp).helperCalls ≠ [] ↔
      ¬(ut = Option.none ∧ ub = Option.none ∧ us = Option.none) := by
  constructor
  · intro hne hall
    apply hne
    simp [update_issue_body, hall.1, hall.2.1, hall.2.2]
  · intro hne
    unfold update_issue_body
    dsimp only
    split
    · rename_i hdata
      exfalso
      apply hne
      cases ut <;> cases ub <;> cases us <;> simp_all
    · split <;> simp [outOf, ghreq_helperCalls]

lemma update_pull_request_body_calls_iff (env : Env) (net : RestRequest → RestResponse)
    (pn : Int) (ut ub ubase urp : Option String) :
    (update_pull_request_body env net pn ut ub ubase urp).helperCalls ≠ [] ↔
      ¬(ut = Option.none ∧ ub = Option.none ∧ ubase = Option.none) := by
  constructor
  · intro hne hall
    apply hne
    simp [update_pull_request_body, hall.1, hall.2.1, hall.2.2]
  · intro hne
    unfold update_pull_request_body
    dsimp only
    split
    · rename_i hdata
      exfalso
      apply hne
      cases ut <;> cases ub <;> cases ubase <;> simp_all
    · split <;> simp [outOf, ghreq_helperCalls]

lemma cpr_body_facts (env : Env) (net : RestRequest → RestResponse)
    (pt ph pb pbd : String) (prp : Option String) (fid : Option Int)
    (h : _should_call_write_api env = true) :
    (create_pull_request_body env net pt ph pb pbd prp fid).records = [] ∧
    (create_pull_request_body env net pt ph pb pbd prp fid).helperCalls ≠ [] := by
  unfold create_pull_request_body
  dsimp only
  split
  · simp [outOf, ghreq_helperCalls]
  · simp [outOf, ghreq_helperCalls]
  · simp [outOf, ghreq_helperCalls]
  · rename_i m
    cases fid with
    | none => simp [outOf, ghreq_helperCalls]
    | some f =>
      dsimp only
      rw [add_issue_comment_on env net f _ prp h]
      split <;> simp [ghreq_helperCalls, (add_issue_comment_body_facts env net f _ prp).1]

/-- C3 (amended): with `GITHUB_WRITE` equal to `"true"` under any casing,
every mutating tool call delegates to the wrapped operation and returns its
result unchanged, and appends nothing to the deferral log; the wrapped
operation invokes the REST helper — unconditionally for `create_issue`,
`add_issue_comment`, `create_pull_request` and `reply_to_review_comment`,
and exactly when some optional field is supplied for `update_issue` and
`update_pull_request` (whose local validation otherwise returns first). -/
theorem writeGateDelegation
    (env : Env) (net : RestRequest → RestResponse)
    (ti bo : String) (rp : Option String)
    (inum : Int) (ut ub us urp : Option String)
    (cn : Int) (ct : String) (crp : Option String)
    (pt ph pb pbd : String) (prp : Option String) (fid : Option Int)
    (upn : Int) (upt upb upbase uprp : Option String)
    (rpn rcid : Int) (rtxt : String) (rrp : Option String)
    (h : _should_call_write_api env = true) :
    (create_issue env net ti bo rp = create_issue_body env net ti bo rp ∧
     (create_issue env net ti bo rp).records = [] ∧
     (create_issue env net ti bo rp).helperCalls = [⟨"POST", "issues"⟩]) ∧
    (update_issue env net inum ut ub us urp = update_issue_body env net inum ut ub us urp ∧
     (update_issue env net inum ut ub us urp).records = [] ∧
     ((update_issue env net inum ut ub us urp).helperCalls ≠ [] ↔
       ¬(ut = Option.none ∧ ub = Option.none ∧ us = Option.none))) ∧
    (add_issue_comment env net cn ct crp = add_issue_comment_body env net cn ct crp ∧
     (add_issue_comment env net cn ct crp).records = [] ∧
     (add_issue_comment env net cn ct crp).helperCalls =
       [⟨"POST", "issues/" ++ toString cn ++ "/comments"⟩]) ∧
    (create_pull_request env net pt ph pb pbd prp fid =
       create_pull_request_body env net pt ph pb pbd prp fid ∧
     (create_pull_request env net pt ph pb pbd prp fid).records = [] ∧
     (create_pull_request env net pt ph pb pbd prp fid).helperCalls ≠ []) ∧
    (update_pull_request env net upn upt upb upbase uprp =
       update_pull_request_body env net upn upt upb upbase uprp ∧
     (update_pull_request env net upn upt upb upbase uprp).records = [] ∧
     ((update_pull_request env net upn upt upb upbase uprp).helperCalls ≠ [] ↔
       ¬(upt = Option.none ∧ upb = Option.none ∧ upbase = Option.none))) ∧
    (reply_to_review_comment env net rpn rcid rtxt rrp =
       reply_to_review_comment_body env net rpn rcid rtxt rrp ∧
     (reply_to_review_comment env net rpn rcid rtxt rrp).records = [] ∧
     (reply_to_review_comment env net rpn rcid rtxt rrp).helperCalls =
       [⟨"POST", "pulls/" ++ toString rpn ++ "/comments/" ++ toString rcid ++ "/replies"⟩]) := by
  have g1 : create_issue env net ti bo rp = create_issue_body env net ti bo rp :=
    gate_on env h _ _ _
  have g2 : update_issue env net inum ut ub us urp =
      update_issue_body env net inum ut ub us urp := gate_on env h _ _ _
  have g3 : add_issue_comment env net cn ct crp =
      add_issue_comment_body env net cn ct crp := gate_on env h _ _ _
  have g4 : create_pull_request env net pt ph pb pbd prp fid =
      create_pull_request_body env net pt ph pb pbd prp fid := gate_on env h _ _ _
  have g5 : update_pull_request env net upn upt upb upbase uprp =
      update_pull_request_body env net upn upt upb upbase uprp := gate_on env h _ _ _
  have g6 : reply_to_review_comment env net rpn rcid rtxt rrp =
      reply_to_review_comment_body env net rpn rcid rtxt rrp := gate_on env h _ _ _
  refine ⟨⟨g1, ?_, ?_⟩, ⟨g2, ?_, ?_⟩, ⟨g3, ?_, ?_⟩, ⟨g4, ?_, ?_⟩, ⟨g5, ?_, ?_⟩, ⟨g6, ?_, ?_⟩⟩
  · rw [g1]; exact (create_issue_body_facts env net ti bo rp).1
  · rw [g1]; exact (create_issue_body_facts env net ti bo rp).2
  · rw [g2]; exact update_issue_body_records env net inum ut ub us urp
  · rw [g2]; exact update_issue_body_calls_iff env net inum ut ub us urp
  · rw [g3]; exact (add_issue_comment_body_facts env net cn ct crp).1
  · rw [g3]; exact (add_issue_comment_body_facts env net cn ct crp).2
  · rw [g4]; exact (cpr_body_facts env net pt ph pb pbd prp fid h).1
  · rw [g4]; exact (cpr_body_facts env net pt ph pb pbd prp fid h).2
  · rw [g5]; exact update_pull_request_body_records env net upn upt upb upbase uprp
  · rw [g5]; exact update_pull_request_body_calls_iff env net upn upt upb upbase uprp
  · rw [g6]; exact (reply_body_facts env net rpn rcid rtxt rrp).1
  · rw [g6]; exact (reply_body_facts env net rpn rcid rtxt rrp).2

theorem writeGateDelegation_witness :
    _should_call_write_api envOn = true ∧
    (create_issue envOn netFail "T" "B" (some "octo/repo") =
       create_issue_body envOn netFail "T" "B" (some "octo/repo") ∧
     (create_issue envOn netFail "T" "B" (some "octo/repo")).records = [] ∧
     (create_issue envOn netFail "T" "B" (some "octo/repo")).helperCalls =
       [⟨"POST", "issues"⟩]) :=
  ⟨by decide,
   (writeGateDelegation envOn netFail "T" "B" (some "octo/repo") 1 Option.none Option.none
      Option.none Option.none 2 "c" Option.none "t" "h" "b" "" Option.none Option.none 3
      Option.none Option.none Option.none Option.none 4 5 "r" Option.none (by decide)).1⟩

lemma str_lit_merge (a b c : String) (h : a ++ b = c) (x : String) :
    a ++ (b ++ x) = c ++ x := by
  rw [← String.append_assoc, h]

lemma ghreq_ok (env : Env) (net : RestRequest → RestResponse)
    (m e : String) (rp : Option String) (d p : List (String × String)) (sr : Bool)
    (r : String) (pl : GHPayload)
    (hr : resolvedRepo env rp = some r)
    (ht : envGet env.github_token "" ≠ "")
    (hnet : net ⟨m, e, r, d, p⟩ = .ok pl) :
    _github_request env net m e rp d p sr = ⟨.payload pl, [⟨m, e⟩], [⟨m, e, r, d, p⟩]⟩ := by
  unfold _github_request
  rw [hr]
  simp [ht, hnet]

lemma ghreq_fail_raise (env : Env) (net : RestRequest → RestResponse)
    (m e : String) (rp : Option String) (d p : List (String × String))
    (r msg : String)
    (hr : resolvedRepo env rp = some r)
    (ht : envGet env.github_token "" ≠ "")
    (hnet : net ⟨m, e, r, d, p⟩ = .fail msg) :
    _github_request env net m e rp d p true = ⟨.raised msg, [⟨m, e⟩], [⟨m, e, r, d, p⟩]⟩ := by
  unfold _github_request
  rw [hr]
  simp [ht, hnet]

lemma ghreq_fail_noraise (env : Env) (net : RestRequest → RestResponse)
    (m e : String) (rp : Option String) (d p : List (String × String))
    (r msg : String)
    (hr : resolvedRepo env rp = some r)
    (ht : envGet env.github_token "" ≠ "")
    (hnet : net ⟨m, e, r, d, p⟩ = .fail msg) :
    _github_request env net m e rp d p false =
      ⟨.err ("Error " ++ msg), [⟨m, e⟩], [⟨m, e, r, d, p⟩]⟩ := by
  unfold _github_request
  rw [hr]
  simp [ht, hnet]

lemma pyOrStr_resolved (env : Env) (rp : Option String) (r : String)
    (hr : resolvedRepo env rp = some r) :
    pyOrStr rp (envGet env.github_repository "") = r := by
  unfold resolvedRepo at hr
  unfold pyOrStr
  cases rp with
  | some x =>
    by_cases hx : x = ""
    · simp [hx] at hr
    · simp [hx] at hr ⊢
      exact hr
  | none =>
    cases henv : env.github_repository with
    | some y =>
      rw [henv] at hr
      by_cases hy : y = ""
      · simp [hy] at hr
      · simp [hy] at hr
        simp [envGet, henv, hr]
    | none => rw [henv] at hr; simp at hr

lemma add_comment_body_ok (env : Env) (net : RestRequest → RestResponse)
    (cn : Int) (ct : String) (crp : Option String) (r : String)
    (hr : resolvedRepo env crp = some r)
    (ht : envGet env.github_token "" ≠ "")
    (hnoarr : isArrResp (net ⟨"POST", "issues/" ++ toString cn ++ "/comments", r,
      [("body", ct)], []⟩) = false) :
    ∃ s, (add_issue_comment_body env net cn ct crp).ret = .ok s ∧
      (add_issue_comment_body env net cn ct crp).helperCalls =
        [⟨"POST", "issues/" ++ toString cn ++ "/comments"⟩] ∧
      (add_issue_comment_body env net cn ct crp).sent =
        [⟨"POST", "issues/" ++ toString cn ++ "/comments", r, [("body", ct)], []⟩] := by
  cases hnet : net ⟨"POST", "issues/" ++ toString cn ++ "/comments", r, [("body", ct)], []⟩ with
  | ok pl =>
    cases pl with
    | obj it =>
      refine ⟨"Comment added successfully: " ++ it.html_url ++ " (created: " ++
          it.created_at ++ ")", ?_, ?_, ?_⟩ <;>
        simp [add_issue_comment_body, ghreq_ok env net _ _ crp _ _ false r _ hr ht hnet, outOf]
    | arr items => rw [hnet] at hnoarr; simp [isArrResp] at hnoarr
  | fail msg =>
    refine ⟨"Error " ++ msg, ?_, ?_, ?_⟩ <;>
      simp [add_issue_comment_body, ghreq_fail_noraise env net _ _ crp _ _ r _ hr ht hnet, outOf]

/-- C4: when the POST to `pulls` fails, `create_pull_request` with a
`fallback_issue_id` posts one comment on that issue whose body is exactly
the manual-creation deep link `https://github.com/{repo}/compare/{base}...{head}`
with precisely the query parameters `quick_pull=1`, `title` and `body`
URL-encoded, and returns the message naming the fallback issue number;
without a `fallback_issue_id` the same failure yields the plain error
string and no comment request. -/
theorem createPullRequestFallback
    (env : Env) (net : RestRequest → RestResponse)
    (pt ph pb pbd : String) (prp : Option String) (fid : Int) (r m : String)
    (h : _should_call_write_api env = true)
    (hr : resolvedRepo env prp = some r)
    (ht : envGet env.github_token "" ≠ "")
    (hp : net ⟨"POST", "pulls", r,
      [("title", pt), ("head", ph), ("base", pb), ("body", pbd)], []⟩ = .fail m)
    (hnoarr : isArrResp (net ⟨"POST", "issues/" ++ toString fid ++ "/comments", r,
      [("body", fallbackCommentText r pb ph pt pbd)], []⟩) = false) :
    fallbackCommentText r pb ph pt pbd =
      "Unable to create pull request via API. You can create it manually by clicking [here](https://github.com/" ++
        r ++ "/compare/" ++ pb ++ "..." ++ ph ++ "?quick_pull=1&title=" ++ pyQuote pt ++
        "&body=" ++ pyQuote pbd ++ ")." ∧
    (create_pull_request env net pt ph pb pbd prp (some fid)).ret =
      .ok ("Unable to create pull request via API - posted a manual creation link as a comment on issue #" ++ toString fid) ∧
    (create_pull_request env net pt ph pb pbd prp (some fid)).sent =
      [⟨"POST", "pulls", r, [("title", pt), ("head", ph), ("base", pb), ("body", pbd)], []⟩,
       ⟨"POST", "issues/" ++ toString fid ++ "/comments", r,
         [("body", fallbackCommentText r pb ph pt pbd)], []⟩] ∧
    (create_pull_request env net pt ph pb pbd prp (some fid)).records = [] ∧
    create_pull_request env net pt ph pb pbd prp Option.none =
      ⟨.ok ("Error: " ++ m), [⟨"POST", "pulls"⟩],
        [⟨"POST", "pulls", r, [("title", pt), ("head", ph), ("base", pb), ("body", pbd)], []⟩],
        []⟩ := by
  have hreq := ghreq_fail_raise env net "POST" "pulls" prp
    [("title", pt), ("head", ph), ("base", pb), ("body", pbd)] [] r m hr ht hp
  have hgate : create_pull_request env net pt ph pb pbd prp (some fid) =
      create_pull_request_body env net pt ph pb pbd prp (some fid) := gate_on env h _ _ _
  have hgate2 : create_pull_request env net pt ph pb pbd prp Option.none =
      create_pull_request_body env net pt ph pb pbd prp Option.none := gate_on env h _ _ _
  have hrepo := pyOrStr_resolved env prp r hr
  obtain ⟨s, hs, hcalls, hsent⟩ :=
    add_comment_body_ok env net fid (fallbackCommentText r pb ph pt pbd) prp r hr ht hnoarr
  have hrec := (add_issue_comment_body_facts env net fid
    (fallbackCommentText r pb ph pt pbd) prp).1
  have hcomment := add_issue_comment_on env net fid (fallbackCommentText r pb ph pt pbd) prp h
  refine ⟨?_, ?_, ?_, ?_, ?_⟩
  · simp only [fallbackCommentText, fallbackLink, fallbackQuery]
    simp only [String.append_assoc]
    rw [str_lit_merge "Unable to create pull request via API. You can create it manually by clicking [here](" "https://github.com/" "Unable to create pull request via API. You can create it manually by clicking [here](https://github.com/" rfl]
    rw [str_lit_merge "?" "quick_pull=1&title=" "?quick_pull=1&title=" rfl]
  · rw [hgate]
    simp only [create_pull_request_body, hreq, hrepo, hcomment, hs, hrec]
  · rw [hgate]
    simp only [create_pull_request_body, hreq, hrepo, hcomment, hs, hrec, hsent]
    simp
  · rw [hgate]
    simp only [create_pull_request_body, hreq, hrepo, hcomment, hs, hrec]
  · rw [hgate2]
    simp only [create_pull_request_body, hreq, outOf]

/-- A sample well-formed GitHub object response. -/
def itemC : GHItem :=
  ⟨42, "t", "open", "b", "octocat", "https://github.com/x", "2024-01-01T00:00:00Z",
   "2024-01-02T00:00:00Z", "feat", "main", false⟩

/-- A REST world in which the `pulls` POST fails and everything else
succeeds with an object payload. -/
def netPRfail : RestRequest → RestResponse := fun req =>
  if req.endpoint = "pulls" then .fail "boom" else .ok (.obj itemC)

theorem createPullRequestFallback_witness :
    pyQuote "a/b" = "a%2Fb" ∧
    _should_call_write_api envOn = true ∧
    resolvedRepo envOn (some "octo/repo") = some "octo/repo" ∧
    envGet envOn.github_token "" ≠ "" ∧
    netPRfail ⟨"POST", "pulls", "octo/repo",
      [("title", "T"), ("head", "H"), ("base", "B"), ("body", "D")], []⟩ = .fail "boom" ∧
    isArrResp (netPRfail ⟨"POST", "issues/" ++ toString (5 : Int) ++ "/comments", "octo/repo",
      [("body", fallbackCommentText "octo/repo" "B" "H" "T" "D")], []⟩) = false ∧
    (create_pull_request envOn netPRfail "T" "H" "B" "D" (some "octo/repo") (some 5)).ret =
      .ok ("Unable to create pull request via API - posted a manual creation link as a comment on issue #" ++ toString (5 : Int)) :=
  ⟨by decide, by decide, by decide, by decide, by decide, by decide,
   (createPullRequestFallback envOn netPRfail "T" "H" "B" "D" (some "octo/repo") 5
      "octo/repo" "boom" (by decide) (by decide) (by decide) (by decide) (by decide)).2.1⟩

/-- C10: on the fallback path, the returned error string of the nested
`add_issue_comment` call (here, the comment POST itself failing on the wire)
is discarded: `create_pull_request` still returns the "posted a manual
creation link" message naming the fallback issue, with no guarantee the
comment was created. -/
theorem createPullRequestFallbackDiscardsCommentError
    (env : Env) (net : RestRequest → RestResponse)
    (pt ph pb pbd : String) (prp : Option String) (fid : Int) (r m m2 : String)
    (h : _should_call_write_api env = true)
    (hr : resolvedRepo env prp = some r)
    (ht : envGet env.github_token "" ≠ "")
    (hp : net ⟨"POST", "pulls", r,
      [("title", pt), ("head", ph), ("base", pb), ("body", pbd)], []⟩ = .fail m)
    (hpc : net ⟨"POST", "issues/" ++ toString fid ++ "/comments", r,
      [("body", fallbackCommentText r pb ph pt pbd)], []⟩ = .fail m2) :
    (add_issue_comment env net fid (fallbackCommentText r pb ph pt pbd) prp).ret =
      .ok ("Error " ++ m2) ∧
    (create_pull_request env net pt ph pb pbd prp (some fid)).ret =
      .ok ("Unable to create pull request via API - posted a manual creation link as a comment on issue #" ++ toString fid) := by
  have hreq := ghreq_fail_raise env net "POST" "pulls" prp
    [("title", pt), ("head", ph), ("base", pb), ("body", pbd)] [] r m hr ht hp
  have hcreq := ghreq_fail_noraise env net "POST" ("issues/" ++ toString fid ++ "/comments")
    prp [("body", fallbackCommentText r pb ph pt pbd)] [] r m2 hr ht hpc
  have hcomment := add_issue_comment_on env net fid (fallbackCommentText r pb ph pt pbd) prp h
  have hgate : create_pull_request env net pt ph pb pbd prp (some fid) =
      create_pull_request_body env net pt ph pb pbd prp (some fid) := gate_on env h _ _ _
  have hrepo := pyOrStr_resolved env prp r hr
  have hcret : (add_issue_comment env net fid (fallbackCommentText r pb ph pt pbd) prp).ret =
      .ok ("Error " ++ m2) := by
    rw [hcomment]
    simp [add_issue_comment_body, hcreq, outOf]
  refine ⟨hcret, ?_⟩
  rw [hgate]
  rw [hcomment] at hcret
  simp only [create_pull_request_body, hreq, hrepo, hcomment, hcret]

theorem createPullRequestFallbackDiscardsCommentError_witness :
    _should_call_write_api envOn = true ∧
    resolvedRepo envOn (some "octo/repo") = some "octo/repo" ∧
    envGet envOn.github_token "" ≠ "" ∧
    netFail ⟨"POST", "pulls", "octo/repo",
      [("title", "T"), ("head", "H"), ("base", "B"), ("body", "D")], []⟩ = .fail "netdown" ∧
    netFail ⟨"POST", "issues/" ++ toString (9 : Int) ++ "/comments", "octo/repo",
      [("body", fallbackCommentText "octo/repo" "B" "H" "T" "D")], []⟩ = .fail "netdown" ∧
    (add_issue_comment envOn netFail 9 (fallbackCommentText "octo/repo" "B" "H" "T" "D")
      (some "octo/repo")).ret = .ok ("Error " ++ "netdown") ∧
    (create_pull_request envOn netFail "T" "H" "B" "D" (some "octo/repo") (some 9)).ret =
      .ok ("Unable to create pull request via API - posted a manual creation link as a comment on issue #" ++ toString (9 : Int)) := by
  refine ⟨by decide, by decide, by decide, rfl, rfl, ?_, ?_⟩
  · exact (createPullRequestFallbackDiscardsCommentError envOn netFail "T" "H" "B" "D"
      (some "octo/repo") 9 "octo/repo" "netdown" "netdown"
      (by decide) (by decide) (by decide) rfl rfl).1
  · exact (createPullRequestFallbackDiscardsCommentError envOn netFail "T" "H" "B" "D"
      (some "octo/repo") 9 "octo/repo" "netdown" "netdown"
      (by decide) (by decide) (by decide) rfl rfl).2

lemma splitChar_ne_nil (sep : Char) (l : List Char) : splitChar sep l ≠ [] := by
  cases l with
  | nil => simp [splitChar]
  | cons c cs =>
    unfold splitChar
    by_cases h : c = sep
    · simp [h]
    · simp only [h, if_neg]
      cases hsp : splitChar sep cs <;> simp

lemma splitChar_no_sep (sep : Char) (l : List Char) (h : ∀ x ∈ l, x ≠ sep) :
    splitChar sep l = [l] := by
  induction l with
  | nil => rfl
  | cons c cs ih =>
    have hc : c ≠ sep := h c (by simp)
    have ih2 := ih (fun x hx => h x (by simp [hx]))
    unfold splitChar
    simp [hc, ih2]

lemma splitChar_append_sep (sep : Char) (l r : List Char) (h : ∀ x ∈ l, x ≠ sep) :
    splitChar sep (l ++ sep :: r) = l :: splitChar sep r := by
  induction l with
  | nil => simp [splitChar]
  | cons c cs ih =>
    have hc : c ≠ sep := h c (by simp)
    have ih2 := ih (fun x hx => h x (by simp [hx]))
    simp only [List.cons_append]
    rw [show splitChar sep (c :: (cs ++ sep :: r)) =
      (match splitChar sep (cs ++ sep :: r) with
        | [] => [[c]]
        | h :: t => (c :: h) :: t) from by rw [splitChar]; simp [hc]]
    simp [ih2]

lemma takeWhile_all_append (p : Char → Bool) (l : List Char) (a : Char) (r : List Char)
    (hp : ∀ x ∈ l, p x = true) (ha : p a = false) :
    (l ++ a :: r).takeWhile p = l := by
  induction l with
  | nil => simp [List.takeWhile_cons, ha]
  | cons c cs ih =>
    have hc := hp c (by simp)
    simp [List.takeWhile_cons, hc, ih (fun x hx => hp x (by simp [hx]))]

lemma digit_ne_space (c : Char) (h : c.isDigit = true) : c ≠ ' ' := by
  intro he
  subst he
  exact absurd h (by decide)

lemma digit_ne_comma (c : Char) (h : c.isDigit = true) : c ≠ ',' := by
  intro he
  subst he
  exact absurd h (by decide)

/-- The character list of a unified-diff hunk header `@@ -a,b +c,d @@`
with the four numbers given as digit strings. -/
def hunkHeaderChars (ca cb cc cd : List Char) : List Char :=
  ['@', '@'] ++ ' ' :: (('-' :: ca ++ ',' :: cb) ++ ' ' ::
    (('+' :: cc ++ ',' :: cd) ++ ' ' :: ['@', '@']))

lemma splitChar_header (ca cb cc cd : List Char)
    (h1 : ∀ c ∈ ca, c.isDigit = true) (h2 : ∀ c ∈ cb, c.isDigit = true)
    (h3 : ∀ c ∈ cc, c.isDigit = true) (h4 : ∀ c ∈ cd, c.isDigit = true) :
    splitChar ' ' (hunkHeaderChars ca cb cc cd) =
      [['@', '@'], '-' :: ca ++ ',' :: cb, '+' :: cc ++ ',' :: cd, ['@', '@']] := by
  unfold hunkHeaderChars
  rw [splitChar_append_sep ' ' ['@', '@'] _ (by decide)]
  rw [splitChar_append_sep ' ' ('-' :: ca ++ ',' :: cb) _ (by
    intro x hx
    have hx2 : x = '-' ∨ x ∈ ca ∨ x = ',' ∨ x ∈ cb := by
      simpa [List.mem_cons, List.mem_append, or_assoc] using hx
    rcases hx2 with h | h | h | h
    · subst h; decide
    · exact digit_ne_space x (h1 x h)
    · subst h; decide
    · exact digit_ne_space x (h2 x h))]
  rw [splitChar_append_sep ' ' ('+' :: cc ++ ',' :: cd) _ (by
    intro x hx
    have hx2 : x = '+' ∨ x ∈ cc ∨ x = ',' ∨ x ∈ cd := by
      simpa [List.mem_cons, List.mem_append, or_assoc] using hx
    rcases hx2 with h | h | h | h
    · subst h; decide
    · exact digit_ne_space x (h3 x h)
    · subst h; decide
    · exact digit_ne_space x (h4 x h))]
  rw [splitChar_no_sep ' ' ['@', '@'] (by decide)]

lemma hunkStep_header (s t cur : Int) (out : String) (ca cb cc cd : List Char) (c : Int)
    (h1 : ∀ ch ∈ ca, ch.isDigit = true) (h2 : ∀ ch ∈ cb, ch.isDigit = true)
    (h3 : ∀ ch ∈ cc, ch.isDigit = true) (h4 : ∀ ch ∈ cd, ch.isDigit = true)
    (h5 : pyInt cc = some c) :
    hunkStep s t (cur, out) (hunkHeaderChars ca cb cc cd) = .ok (c - 1, out) := by
  have hsplit := splitChar_header ca cb cc cd h1 h2 h3 h4
  have hpre : startsWithChars ['@', '@'] (hunkHeaderChars ca cb cc cd) = true := by
    simp [hunkHeaderChars, startsWithChars, List.isPrefixOf]
  have htake : (List.takeWhile (fun ch => !decide (ch = ',')) ('+' :: (cc ++ ',' :: cd))).tail
      = cc := by
    have he : '+' :: (cc ++ ',' :: cd) = ('+' :: cc) ++ ',' :: cd := by simp
    rw [he, takeWhile_all_append (fun ch => !decide (ch = ',')) ('+' :: cc) ',' cd (by
      intro x hx
      rcases List.mem_cons.mp hx with h | h
      · subst h; decide
      · simp [digit_ne_comma x (h3 x h)]) (by decide)]
    rfl
  unfold hunkStep
  rw [hpre]
  simp only [if_true, hsplit]
  norm_num [List.getD]
  rw [htake, h5]

/-- C6: in the diff-context reconstruction, a hunk header `@@ -a,b +c,d @@`
(digit strings, `pyInt cc = some c`) sets the new-file counter to `c - 1`
regardless of its previous value — so the first subsequent non-removed line
is numbered `c`; each `+` or context (space) line increments the counter and
is emitted exactly when the incremented value lies within the inclusive
bounds `[s, t]` passed by the caller (which `renderThread` instantiates with
`s = pyOrInt startLine line` and `t = line`), added lines carrying the
`+`-and-number prefix; removed (`-`) lines leave the counter unchanged and
emit nothing. -/
theorem diffContextReconstruction
    (ca cb cc cd : List Char) (c : Int) (s t cur : Int) (out : String)
    (content : List Char) (rest : List (List Char))
    (h1 : ∀ ch ∈ ca, ch.isDigit = true) (h2 : ∀ ch ∈ cb, ch.isDigit = true)
    (h3 : ∀ ch ∈ cc, ch.isDigit = true) (h4 : ∀ ch ∈ cd, ch.isDigit = true)
    (h5 : pyInt cc = some c) :
    hunkStep s t (cur, out) (hunkHeaderChars ca cb cc cd) = .ok (c - 1, out) ∧
    List.foldlM (hunkStep s t) ((0 : Int), "") (hunkHeaderChars ca cb cc cd :: rest) =
      List.foldlM (hunkStep s t) (c - 1, "") rest ∧
    hunkStep s t (cur, out) ('+' :: content) =
      .ok (cur + 1,
        if s ≤ cur + 1 ∧ cur + 1 ≤ t then
          out ++ ("       +" ++ toString (cur + 1) ++ ": " ++ String.mk content ++ "\n")
        else out) ∧
    hunkStep s t (cur, out) (' ' :: content) =
      .ok (cur + 1,
        if s ≤ cur + 1 ∧ cur + 1 ≤ t then
          out ++ ("        " ++ toString (cur + 1) ++ ": " ++ String.mk content ++ "\n")
        else out) ∧
    hunkStep s t (cur, out) ('-' :: content) = .ok (cur, out) := by
  refine ⟨hunkStep_header s t cur out ca cb cc cd c h1 h2 h3 h4 h5, ?_, ?_, ?_, ?_⟩
  · rw [List.foldlM_cons, hunkStep_header s t 0 "" ca cb cc cd c h1 h2 h3 h4 h5]
    rfl
  · simp [hunkStep, startsWithChars, List.isPrefixOf]
  · simp [hunkStep, startsWithChars, List.isPrefixOf]
  · simp [hunkStep, startsWithChars, List.isPrefixOf]

theorem diffContextReconstruction_witness :
    (∀ ch ∈ ['2', '0'], ch.isDigit = true) ∧ pyInt ['2', '0'] = some 20 ∧
    (hunkStep 20 21 (0, "") (hunkHeaderChars ['1', '0'] ['5'] ['2', '0'] ['6']) =
      .ok (20 - 1, "") ∧
     List.foldlM (hunkStep 20 21) ((0 : Int), "")
        (hunkHeaderChars ['1', '0'] ['5'] ['2', '0'] ['6'] :: [[' ', 'o'], ['+', 'n']]) =
      List.foldlM (hunkStep 20 21) (20 - 1, "") [[' ', 'o'], ['+', 'n']]) ∧
    processHunk 20 21 (splitChar '\n' ("@@ -10,5 +20,6 @@\n old\n-gone\n+new").toList) =
      .ok "        20: old\n       +21: new\n" :=
  ⟨by decide, by decide,
   ⟨(diffContextReconstruction ['1', '0'] ['5'] ['2', '0'] ['6'] 20 20 21 0 ""
      ['x'] [[' ', 'o'], ['+', 'n']] (by decide) (by decide) (by decide) (by decide)
      (by decide)).1,
    (diffContextReconstruction ['1', '0'] ['5'] ['2', '0'] ['6'] 20 20 21 0 ""
      ['x'] [[' ', 'o'], ['+', 'n']] (by decide) (by decide) (by decide) (by decide)
      (by decide)).2.1⟩,
   rfl⟩

/-- The cutoff comparison of lines 731 and 739: a timestamp is "newer" iff
it parses and is strictly after the cutoff. -/
def newerStamp (parse : String → Option Int) (cutoff : Int) (u : String) : Bool :=
  match parse (zrep u) with
  | some t => cutoff < t
  | none => false

/-- A review thread survives the `since` filter iff some comment is newer. -/
def threadHasNewer (parse : String → Option Int) (cutoff : Int) (th : ReviewThread) : Bool :=
  th.comments.any (fun c => newerStamp parse cutoff c.updatedAt)

/-- A top-level comment survives the `since` filter iff it is newer. -/
def topNewer (parse : String → Option Int) (cutoff : Int) (c : PrComment) : Bool :=
  newerStamp parse cutoff c.updatedAt

lemma anyNewerE_ok (parse : String → Option Int) (cutoff : Int) (cs : List ReviewComment)
    (h : ∀ c ∈ cs, (parse (zrep c.updatedAt)).isSome = true) :
    anyNewerE parse cutoff cs =
      .ok (cs.any fun c => newerStamp parse cutoff c.updatedAt) := by
  induction cs with
  | nil => rfl
  | cons c cs ih =>
    obtain ⟨t, ht⟩ := Option.isSome_iff_exists.mp (h c (by simp))
    have ih2 := ih (fun x hx => h x (by simp [hx]))
    unfold anyNewerE
    rw [ht]
    by_cases hlt : cutoff < t
    · simp [hlt, newerStamp, ht]
    · simp [hlt, newerStamp, ht, ih2]

lemma filterThreadsE_ok (parse : String → Option Int) (cutoff : Int)
    (l : List ReviewThread)
    (h : ∀ th ∈ l, ∀ c ∈ th.comments, (parse (zrep c.updatedAt)).isSome = true) :
    filterThreadsE parse cutoff l = .ok (l.filter (threadHasNewer parse cutoff)) := by
  induction l with
  | nil => rfl
  | cons th ths ih =>
    have hh := anyNewerE_ok parse cutoff th.comments (h th (by simp))
    have ih2 := ih (fun x hx cc hcc => h x (by simp [hx]) cc hcc)
    simp only [filterThreadsE, hh, ih2]
    simp [threadHasNewer, List.filter_cons]

lemma filterCommentsE_ok (parse : String → Option Int) (cutoff : Int)
    (l : List PrComment)
    (h : ∀ c ∈ l, (parse (zrep c.updatedAt)).isSome = true) :
    filterCommentsE parse cutoff l = .ok (l.filter (topNewer parse cutoff)) := by
  induction l with
  | nil => rfl
  | cons c cs ih =>
    obtain ⟨t, ht⟩ := Option.isSome_iff_exists.mp (h c (by simp))
    have ih2 := ih (fun x hx => h x (by simp [hx]))
    simp only [filterCommentsE, ht, ih2]
    simp [topNewer, newerStamp, ht, List.filter_cons]

lemma sinceFilterE_ok (parse : String → Option Int) (s : String) (pd : PrData)
    (cutoff : Int) (h7 : parse (zrep s) = some cutoff)
    (h8 : ∀ th ∈ pd.reviewThreads, ∀ c ∈ th.comments,
      (parse (zrep c.updatedAt)).isSome = true)
    (h9 : ∀ c ∈ pd.comments, (parse (zrep c.updatedAt)).isSome = true) :
    sinceFilterE parse s pd =
      .ok ⟨pd.reviewThreads.filter (threadHasNewer parse cutoff),
           pd.comments.filter (topNewer parse cutoff)⟩ := by
  simp only [sinceFilterE, h7, filterThreadsE_ok parse cutoff pd.reviewThreads h8,
    filterCommentsE_ok parse cutoff pd.comments h9]

lemma threadHasNewer_iff (parse : String → Option Int) (cutoff : Int) (th : ReviewThread) :
    threadHasNewer parse cutoff th = true ↔
      ∃ c ∈ th.comments, ∃ tt, parse (zrep c.updatedAt) = some tt ∧ cutoff < tt := by
  unfold threadHasNewer
  rw [List.any_eq_true]
  constructor
  · rintro ⟨c, hc, hp⟩
    refine ⟨c, hc, ?_⟩
    unfold newerStamp at hp
    cases hpp : parse (zrep c.updatedAt) with
    | none => rw [hpp] at hp; simp at hp
    | some tt => rw [hpp] at hp; exact ⟨tt, rfl, by simpa using hp⟩
  · rintro ⟨c, hc, tt, hpp, hlt⟩
    exact ⟨c, hc, by simp [newerStamp, hpp, hlt]⟩

lemma topNewer_iff (parse : String → Option Int) (cutoff : Int) (c : PrComment) :
    topNewer parse cutoff c = true ↔
      ∃ tt, parse (zrep c.updatedAt) = some tt ∧ cutoff < tt := by
  unfold topNewer newerStamp
  cases hpp : parse (zrep c.updatedAt) with
  | none => simp
  | some tt => simp

/-- C5: with a parseable `since` cutoff and parseable comment timestamps,
`get_pr_review_and_comments` renders exactly the data in which a review
thread is kept — whole, with all its comments — precisely when at least one
of its comments is updated strictly after the cutoff, and a top-level PR
comment is kept precisely when it itself is updated strictly after the
cutoff. -/
theorem sinceFilterSemantics
    (env : Env) (w : GqlWorld) (pr : Int) (shw : Bool) (repoArg : Option String)
    (s r : String) (cutoff : Int) (d : GqlData) (pd : PrData)
    (h1 : resolvedRepo env repoArg = some r)
    (h2 : envGet env.github_token "" ≠ "")
    (h3 : (pySplitSlash r).length = 2)
    (h4 : w.gql = GqlResponse.httpData d)
    (h5 : d.errors = Option.none)
    (h6 : d.pr = some pd)
    (hs : s ≠ "")
    (h7 : w.parseTime (zrep s) = some cutoff)
    (h8 : ∀ th ∈ pd.reviewThreads, ∀ c ∈ th.comments,
      (w.parseTime (zrep c.updatedAt)).isSome = true)
    (h9 : ∀ c ∈ pd.comments, (w.parseTime (zrep c.updatedAt)).isSome = true) :
    get_pr_review_and_comments env w pr shw repoArg (some s) =
      .ok (runCaught w (buildOutput pr shw
        ⟨pd.reviewThreads.filter (threadHasNewer w.parseTime cutoff),
         pd.comments.filter (topNewer w.parseTime cutoff)⟩)) ∧
    (∀ th, th ∈ pd.reviewThreads.filter (threadHasNewer w.parseTime cutoff) ↔
      th ∈ pd.reviewThreads ∧ ∃ c ∈ th.comments, ∃ tt,
        w.parseTime (zrep c.updatedAt) = some tt ∧ cutoff < tt) ∧
    (∀ c, c ∈ pd.comments.filter (topNewer w.parseTime cutoff) ↔
      c ∈ pd.comments ∧ ∃ tt, w.parseTime (zrep c.updatedAt) = some tt ∧ cutoff < tt) := by
  obtain ⟨o, nm, hsplit⟩ := List.length_eq_two.mp h3
  refine ⟨?_, ?_, ?_⟩
  · simp only [get_pr_review_and_comments, h1, if_neg h2, hsplit, h4, gqlTryBody, h5, h6,
      if_neg hs, sinceFilterE_ok w.parseTime s pd cutoff h7 h8 h9]
  · intro th
    simp [List.mem_filter, threadHasNewer_iff]
  · intro c
    simp [List.mem_filter, topNewer_iff]

/-- A concrete timestamp table standing for `datetime.fromisoformat`. -/
def parseTable : String → Option Int := fun u =>
  if u = "t1" then some 1 else if u = "t5" then some 5
  else if u = "cut" then some 3 else Option.none

/-- An old review comment (timestamp 1). -/
def rcOld : ReviewComment :=
  ⟨"c1", "100", "alice", "old text", "t1", "f.py", some 3, Option.none, "",
   Option.none, Option.none⟩

/-- A newer review comment (timestamp 5) replying to `rcOld`. -/
def rcNew : ReviewComment :=
  ⟨"c2", "101", "bob", "new text", "t5", "f.py", some 3, Option.none, "",
   some "c1", Option.none⟩

/-- A thread with one old and one new comment (kept in full by the filter). -/
def thNewer : ReviewThread := ⟨false, [rcOld, rcNew]⟩

/-- A thread with only the old comment (dropped entirely by the filter). -/
def thStale : ReviewThread := ⟨false, [rcOld]⟩

/-- An old top-level comment. -/
def pcOld : PrComment := ⟨"alice", "x", "t1"⟩

/-- A newer top-level comment. -/
def pcNew : PrComment := ⟨"bob", "y", "t5"⟩

/-- Sample pull-request data for the filter witness. -/
def pdC : PrData := ⟨[thNewer, thStale], [pcOld, pcNew]⟩

/-- Sample GraphQL world for the filter witness. -/
def wC : GqlWorld := ⟨.httpData ⟨Option.none, some pdC⟩, parseTable, "tb"⟩

theorem sinceFilterSemantics_witness :
    resolvedRepo envOn (some "octo/repo") = some "octo/repo" ∧
    (pySplitSlash "octo/repo").length = 2 ∧
    parseTable (zrep "cut") = some 3 ∧
    (∀ th ∈ pdC.reviewThreads, ∀ c ∈ th.comments,
      (parseTable (zrep c.updatedAt)).isSome = true) ∧
    pdC.reviewThreads.filter (threadHasNewer parseTable 3) = [thNewer] ∧
    pdC.comments.filter (topNewer parseTable 3) = [pcNew] ∧
    get_pr_review_and_comments envOn wC 7 false (some "octo/repo") (some "cut") =
      .ok (runCaught wC (buildOutput 7 false
        ⟨pdC.reviewThreads.filter (threadHasNewer wC.parseTime 3),
         pdC.comments.filter (topNewer wC.parseTime 3)⟩)) :=
  ⟨by decide, by decide, by decide, by decide, by decide, by decide,
   (sinceFilterSemantics envOn wC 7 false (some "octo/repo") "cut" "octo/repo" 3
      ⟨Option.none, some pdC⟩ pdC (by decide) (by decide) (by decide) rfl rfl rfl
      (by decide) (by decide) (by decide) (by decide)).1⟩

/-- C9 counterexample: a repo argument without exactly one `/` makes
`get_pr_review_and_comments` raise (the `repo.split("/")` unpacking at line
664 sits outside the `try`), so the tool does not return a string. -/
theorem toolStringReturn_counterexample :
    get_pr_review_and_comments envOn wC 1 false (some "noslash") Option.none =
      Except.error "ValueError: values to unpack mismatch in repo.split" := rfl

/-- The resolved repository (if any) splits into exactly two parts. -/
def repoWellFormed (env : Env) (repo : Option String) : Bool :=
  match resolvedRepo env repo with
  | some r => (pySplitSlash r).length == 2
  | none => true

lemma ghreq_no_raise (env : Env) (net : RestRequest → RestResponse)
    (m e : String) (rp : Option String) (d p : List (String × String)) (ms : String) :
    (_github_request env net m e rp d p false).result ≠ .raised ms := by
  simp only [_github_request]
  cases hrr : resolvedRepo env rp with
  | none => simp
  | some r =>
    by_cases htok : envGet env.github_token "" = ""
    · simp [htok]
    · simp only [htok, if_false]
      cases hnet : net ⟨m, e, r, d, p⟩ with
      | ok pl => simp
      | fail ms2 => simp

lemma ghreq_no_arr (env : Env) (net : RestRequest → RestResponse)
    (m e : String) (rp : Option String) (d p : List (String × String)) (sr : Bool)
    (hO : NoArr net) (its : List GHItem) :
    (_github_request env net m e rp d p sr).result ≠ .payload (.arr its) := by
  simp only [_github_request]
  cases hrr : resolvedRepo env rp with
  | none => simp
  | some r =>
    by_cases htok : envGet env.github_token "" = ""
    · simp [htok]
    · simp only [htok, if_false]
      cases hnet : net ⟨m, e, r, d, p⟩ with
      | ok pl =>
        cases pl with
        | obj it => simp
        | arr its2 =>
          have hx := hO ⟨m, e, r, d, p⟩
          rw [hnet] at hx
          simp [isArrResp] at hx
      | fail ms2 => by_cases hsr : sr <;> simp [hsr]

lemma ghreq_no_obj (env : Env) (net : RestRequest → RestResponse)
    (m e : String) (rp : Option String) (d p : List (String × String)) (sr : Bool)
    (hA : NoObj net) (it : GHItem) :
    (_github_request env net m e rp d p sr).result ≠ .payload (.obj it) := by
  simp only [_github_request]
  cases hrr : resolvedRepo env rp with
  | none => simp
  | some r =>
    by_cases htok : envGet env.github_token "" = ""
    · simp [htok]
    · simp only [htok, if_false]
      cases hnet : net ⟨m, e, r, d, p⟩ with
      | ok pl =>
        cases pl with
        | arr its => simp
        | obj it2 =>
          have hx := hA ⟨m, e, r, d, p⟩
          rw [hnet] at hx
          simp [isObjResp] at hx
      | fail ms2 => by_cases hsr : sr <;> simp [hsr]

lemma gate_ret_ok (env : Env) (nm : String) (ps : List (String × PVal))
    (body : ToolOutput) (hbody : ∃ s, body.ret = .ok s) :
    ∃ s, (gate env nm ps body).ret = .ok s := by
  unfold gate
  by_cases h : _should_call_write_api env = true
  · simpa [h] using hbody
  · simp only [Bool.not_eq_true] at h
    simp [h]

lemma create_issue_body_ok (env : Env) (net : RestRequest → RestResponse)
    (ti bo : String) (rp : Option String) (hO : NoArr net) :
    ∃ s, (create_issue_body env net ti bo rp).ret = .ok s := by
  cases hres : (_github_request env net "POST" "issues" rp
      [("title", ti), ("body", bo)] [] false).result with
  | err s => exact ⟨s, by simp [create_issue_body, hres, outOf]⟩
  | payload p =>
    cases p with
    | obj it =>
      exact ⟨"Issue created: #" ++ toString it.number ++ " - " ++ it.html_url,
        by simp [create_issue_body, hres, outOf]⟩
    | arr its => exact absurd hres (ghreq_no_arr env net _ _ rp _ _ false hO its)
  | raised ms => exact absurd hres (ghreq_no_raise env net _ _ rp _ _ ms)

lemma update_issue_body_ok (env : Env) (net : RestRequest → RestResponse)
    (inum : Int) (ut ub us urp : Option String) (hO : NoArr net) :
    ∃ s, (update_issue_body env net inum ut ub us urp).ret = .ok s := by
  unfold update_issue_body
  dsimp only
  split
  · exact ⟨_, rfl⟩
  · split
    · exact ⟨_, rfl⟩
    · exact ⟨_, rfl⟩
    · rename_i its hres
      exact absurd hres (ghreq_no_arr env net _ _ urp _ _ false hO its)
    · rename_i ms hres
      exact absurd hres (ghreq_no_raise env net _ _ urp _ _ ms)

lemma add_issue_comment_body_ok (env : Env) (net : RestRequest → RestResponse)
    (cn : Int) (ct : String) (crp : Option String) (hO : NoArr net) :
    ∃ s, (add_issue_comment_body env net cn ct crp).ret = .ok s := by
  cases hres : (_github_request env net "POST" ("issues/" ++ toString cn ++ "/comments") crp
      [("body", ct)] [] false).result with
  | err s => exact ⟨s, by simp [add_issue_comment_body, hres, outOf]⟩
  | payload p =>
    cases p with
    | obj it =>
      exact ⟨"Comment added successfully: " ++ it.html_url ++ " (created: " ++
        it.created_at ++ ")", by simp [add_issue_comment_body, hres, outOf]⟩
    | arr its => exact absurd hres (ghreq_no_arr env net _ _ crp _ _ false hO its)
  | raised ms => exact absurd hres (ghreq_no_raise env net _ _ crp _ _ ms)

lemma update_pull_request_body_ok (env : Env) (net : RestRequest → RestResponse)
    (pn : Int) (ut ub ubase urp : Option String) (hO : NoArr net) :
    ∃ s, (update_pull_request_body env net pn ut ub ubase urp).ret = .ok s := by
  unfold update_pull_request_body
  dsimp only
  split
  · exact ⟨_, rfl⟩
  · split
    · exact ⟨_, rfl⟩
    · exact ⟨_, rfl⟩
    · rename_i its hres
      exact absurd hres (ghreq_no_arr env net _ _ urp _ _ false hO its)
    · rename_i ms hres
      exact absurd hres (ghreq_no_raise env net _ _ urp _ _ ms)

lemma reply_body_ok (env : Env) (net : RestRequest → RestResponse)
    (rpn rcid : Int) (rtxt : String) (rrp : Option String) (hO : NoArr net) :
    ∃ s, (reply_to_review_comment_body env net rpn rcid rtxt rrp).ret = .ok s := by
  cases hres : (_github_request env net "POST"
      ("pulls/" ++ toString rpn ++ "/comments/" ++ toString rcid ++ "/replies") rrp
      [("body", rtxt)] [] false).result with
  | err s => exact ⟨s, by simp [reply_to_review_comment_body, hres, outOf]⟩
  | payload p =>
    cases p with
    | obj it =>
      exact ⟨"Reply added to review comment: " ++ it.html_url,
        by simp [reply_to_review_comment_body, hres, outOf]⟩
    | arr its => exact absurd hres (ghreq_no_arr env net _ _ rrp _ _ false hO its)
  | raised ms => exact absurd hres (ghreq_no_raise env net _ _ rrp _ _ ms)

lemma create_pull_request_body_ok (env : Env) (net : RestRequest → RestResponse)
    (pt ph pb pbd : String) (prp : Option String) (fid : Option Int) (hO : NoArr net) :
    ∃ s, (create_pull_request_body env net pt ph pb pbd prp fid).ret = .ok s := by
  unfold create_pull_request_body
  dsimp only
  split
  · exact ⟨_, rfl⟩
  · exact ⟨_, rfl⟩
  · rename_i its hres
    exact absurd hres (ghreq_no_arr env net _ _ prp _ _ true hO its)
  · cases fid with
    | none => exact ⟨_, rfl⟩
    | some f =>
      dsimp only
      obtain ⟨s, hs⟩ := gate_ret_ok env "add_issue_comment"
        [("issue_number", PVal.int f),
         ("comment_text", PVal.str (fallbackCommentText
           (pyOrStr prp (envGet env.github_repository "")) pb ph pt pbd)),
         ("repo", pvo prp)]
        (add_issue_comment_body env net f
          (fallbackCommentText (pyOrStr prp (envGet env.github_repository "")) pb ph pt pbd)
          prp)
        (add_issue_comment_body_ok env net f
          (fallbackCommentText (pyOrStr prp (envGet env.github_repository "")) pb ph pt pbd)
          prp hO)
      have hs2 : (add_issue_comment env net f
          (fallbackCommentText (pyOrStr prp (envGet env.github_repository "")) pb ph pt pbd)
          prp).ret = .ok s := hs
      rw [hs2]
      exact ⟨_, rfl⟩

lemma get_issue_ok (env : Env) (net : RestRequest → RestResponse)
    (inum : Int) (rp : Option String) (hO : NoArr net) :
    ∃ s, (get_issue env net inum rp).ret = .ok s := by
  unfold get_issue
  dsimp only
  split
  · exact ⟨_, rfl⟩
  · exact ⟨_, rfl⟩
  · rename_i its hres
    exact absurd hres (ghreq_no_arr env net _ _ rp _ _ false hO its)
  · rename_i ms hres
    exact absurd hres (ghreq_no_raise env net _ _ rp _ _ ms)

lemma get_pull_request_ok (env : Env) (net : RestRequest → RestResponse)
    (pn : Int) (rp : Option String) (hO : NoArr net) :
    ∃ s, (get_pull_request env net pn rp).ret = .ok s := by
  unfold get_pull_request
  dsimp only
  split
  · exact ⟨_, rfl⟩
  · exact ⟨_, rfl⟩
  · rename_i its hres
    exact absurd hres (ghreq_no_arr env net _ _ rp _ _ false hO its)
  · rename_i ms hres
    exact absurd hres (ghreq_no_raise env net _ _ rp _ _ ms)

lemma list_issues_ok (env : Env) (net : RestRequest → RestResponse)
    (st : String) (rp : Option String) (hA : NoObj net) :
    ∃ s, (list_issues env net st rp).ret = .ok s := by
  unfold list_issues
  dsimp only
  split
  · exact ⟨_, rfl⟩
  · rename_i it hres
    exact absurd hres (ghreq_no_obj env net _ _ rp _ _ false hA it)
  · split
    · exact ⟨_, rfl⟩
    · exact ⟨_, rfl⟩
  · rename_i ms hres
    exact absurd hres (ghreq_no_raise env net _ _ rp _ _ ms)

lemma list_pull_requests_ok (env : Env) (net : RestRequest → RestResponse)
    (st : String) (rp : Option String) (hA : NoObj net) :
    ∃ s, (list_pull_requests env net st rp).ret = .ok s := by
  unfold list_pull_requests
  dsimp only
  split
  · exact ⟨_, rfl⟩
  · rename_i it hres
    exact absurd hres (ghreq_no_obj env net _ _ rp _ _ false hA it)
  · split
    · exact ⟨_, rfl⟩
    · exact ⟨_, rfl⟩
  · rename_i ms hres
    exact absurd hres (ghreq_no_raise env net _ _ rp _ _ ms)

lemma get_issue_comments_ok (env : Env) (net : RestRequest → RestResponse)
    (inum : Int) (rp : Option String) (since : Option String) (hA : NoObj net) :
    ∃ s, (get_issue_comments env net inum rp since).ret = .ok s := by
  unfold get_issue_comments
  dsimp only
  split
  · exact ⟨_, rfl⟩
  · rename_i it hres
    exact absurd hres (ghreq_no_obj env net _ _ rp _ _ false hA it)
  · split
    · exact ⟨_, rfl⟩
    · exact ⟨_, rfl⟩
  · rename_i ms hres
    exact absurd hres (ghreq_no_raise env net _ _ rp _ _ ms)

lemma get_pr_ok (env : Env) (w : GqlWorld) (gpr : Int) (shw : Bool)
    (grp : Option String) (since : Option String)
    (hrw : repoWellFormed env grp = true) :
    ∃ s, get_pr_review_and_comments env w gpr shw grp since = .ok s := by
  unfold get_pr_review_and_comments
  cases hrr : resolvedRepo env grp with
  | none => exact ⟨_, rfl⟩
  | some r =>
    by_cases htok : envGet env.github_token "" = ""
    · simp only [htok, if_true]
      exact ⟨_, rfl⟩
    · unfold repoWellFormed at hrw
      rw [hrr] at hrw
      have hl : (pySplitSlash r).length = 2 := by simpa using hrw
      obtain ⟨o, nm, hsp⟩ := List.length_eq_two.mp hl
      simp only [htok, if_false, hsp]
      exact ⟨_, rfl⟩

/-- C9 (amended): every GitHub tool operation returns a string to its caller
(never a raw exception) for every environment and every argument, given REST
success payloads of the shape the endpoint documents (objects for
single-resource endpoints, arrays for list endpoints), with one exception:
`get_pr_review_and_comments` raises when the resolved repository does not
split into exactly two `/`-separated parts (its `repo.split("/")` unpacking
precedes the `try`); for well-formed repositories it returns a string for
every `since` and every GraphQL world, malformed `since` values included
(they are caught and returned as error strings). -/
theorem toolsReturnStrings
    (env : Env) (netO netA : RestRequest → RestResponse) (w : GqlWorld)
    (ti bo ct rtxt pt ph pb pbd st : String)
    (rp : Option String) (inum cn upn rpn rcid pn gpr : Int)
    (ut ub us upt upb upbase : Option String) (fid : Option Int)
    (since : Option String) (grp : Option String)
    (hO : NoArr netO) (hA : NoObj netA)
    (hrw : repoWellFormed env grp = true) :
    (∃ s, (create_issue env netO ti bo rp).ret = .ok s) ∧
    (∃ s, (update_issue env netO inum ut ub us rp).ret = .ok s) ∧
    (∃ s, (add_issue_comment env netO cn ct rp).ret = .ok s) ∧
    (∃ s, (create_pull_request env netO pt ph pb pbd rp fid).ret = .ok s) ∧
    (∃ s, (update_pull_request env netO upn upt upb upbase rp).ret = .ok s) ∧
    (∃ s, (reply_to_review_comment env netO rpn rcid rtxt rp).ret = .ok s) ∧
    (∃ s, (get_issue env netO inum rp).ret = .ok s) ∧
    (∃ s, (get_pull_request env netO pn rp).ret = .ok s) ∧
    (∃ s, (list_issues env netA st rp).ret = .ok s) ∧
    (∃ s, (list_pull_requests env netA st rp).ret = .ok s) ∧
    (∃ s, (get_issue_comments env netA inum rp since).ret = .ok s) ∧
    (∃ s, get_pr_review_and_comments env w gpr false grp since = .ok s) :=
  ⟨gate_ret_ok env _ _ _ (create_issue_body_ok env netO ti bo rp hO),
   gate_ret_ok env _ _ _ (update_issue_body_ok env netO inum ut ub us rp hO),
   gate_ret_ok env _ _ _ (add_issue_comment_body_ok env netO cn ct rp hO),
   gate_ret_ok env _ _ _ (create_pull_request_body_ok env netO pt ph pb pbd rp fid hO),
   gate_ret_ok env _ _ _ (update_pull_request_body_ok env netO upn upt upb upbase rp hO),
   gate_ret_ok env _ _ _ (reply_body_ok env netO rpn rcid rtxt rp hO),
   get_issue_ok env netO inum rp hO,
   get_pull_request_ok env netO pn rp hO,
   list_issues_ok env netA st rp hA,
   list_pull_requests_ok env netA st rp hA,
   get_issue_comments_ok env netA inum rp since hA,
   get_pr_ok env w gpr false grp since hrw⟩

/-- A REST world answering every request with the same object payload. -/
def netObjC : RestRequest → RestResponse := fun _ => .ok (.obj itemC)

/-- A REST world answering every request with an empty array payload. -/
def netArrC : RestRequest → RestResponse := fun _ => .ok (.arr [])

theorem toolsReturnStrings_witness :
    NoArr netObjC ∧ NoObj netArrC ∧
    repoWellFormed envOn (some "octo/repo") = true ∧
    ((∃ s, (create_issue envOn netObjC "T" "B" (some "octo/repo")).ret = .ok s) ∧
     (∃ s, (update_issue envOn netObjC 1 (some "t") Option.none Option.none
        (some "octo/repo")).ret = .ok s) ∧
     (∃ s, (add_issue_comment envOn netObjC 2 "c" (some "octo/repo")).ret = .ok s) ∧
     (∃ s, (create_pull_request envOn netObjC "T" "H" "B" "D" (some "octo/repo")
        (some 3)).ret = .ok s) ∧
     (∃ s, (update_pull_request envOn netObjC 4 (some "t") Option.none Option.none
        (some "octo/repo")).ret = .ok s) ∧
     (∃ s, (reply_to_review_comment envOn netObjC 5 6 "r" (some "octo/repo")).ret = .ok s) ∧
     (∃ s, (get_issue envOn netObjC 1 (some "octo/repo")).ret = .ok s) ∧
     (∃ s, (get_pull_request envOn netObjC 4 (some "octo/repo")).ret = .ok s) ∧
     (∃ s, (list_issues envOn netArrC "open" (some "octo/repo")).ret = .ok s) ∧
     (∃ s, (list_pull_requests envOn netArrC "open" (some "octo/repo")).ret = .ok s) ∧
     (∃ s, (get_issue_comments envOn netArrC 1 (some "octo/repo")
        (some "bad since ++")).ret = .ok s) ∧
     (∃ s, get_pr_review_and_comments envOn wC 7 false (some "octo/repo")
        (some "bad since ++") = .ok s)) :=
  ⟨fun _ => rfl, fun _ => rfl, by decide,
   toolsReturnStrings envOn netObjC netArrC wC "T" "B" "c" "r" "T" "H" "B" "D" "open"
     (some "octo/repo") 1 2 4 5 6 4 7 (some "t") Option.none Option.none (some "t")
     Option.none Option.none (some 3) (some "bad since ++") (some "octo/repo")
     (fun _ => rfl) (fun _ => rfl) (by decide)⟩
